import Mathlib

/-
  Verification development for the sd_lide.device SPI SD driver.

  This file gives a shallow embedding of src/sd.c (with the SPI transport
  of src/spi.c modelled as an event log plus a response-byte oracle, and
  the CIA timer of src/timer.c modelled as a tick oracle), and settles the
  frozen claims about the driver against that embedding.

  Machine integers are modelled as Nat with explicit reductions modulo
  2^8 / 2^32 where the C code can overflow or wrap.
-/

set_option maxHeartbeats 1000000
set_option maxRecDepth 2000

def u32 (x : Nat) : Nat := x % 4294967296

def u8 (x : Nat) : Nat := x % 256

/-- Modelled from the spec: the card-type enumeration of device.h is not
under src/.  Section 3 of the spec gives the card types: none, SD v1.x,
SD v2.0 byte-addressed, SDHC/SDXC block-addressed, MMC.  The C code tests
the type for truthiness, so only `none` acts as the zero value. -/
inductive CardType where
  | none
  | sd1x
  | sd20
  | sdhc
  | mmc
deriving DecidableEq, Repr

/-- Modelled from the spec: error kinds of device.h (not under src/), per
section 7 of the spec.  OK is zero; the other kinds are distinct negative
values, as required by the sign tests in sd.c (sd_wait_ready result tested
with < 0, per-sector errors tested with err < 0). -/
def sdError_OK : Int := 0

/-- Modelled from the spec: timeout error kind (negative, see sdError_OK). -/
def sdError_Timeout : Int := -1

/-- Modelled from the spec: bad-response error kind (negative). -/
def sdError_BadResponse : Int := -2

/-- Modelled from the spec: no-card error kind (negative). -/
def sdError_NoCard : Int := -3

/-- Modelled from the spec: unsupported-card error kind (negative). -/
def sdError_Unsupported : Int := -4

/-- Exec error code IOERR_OPENFAIL of the AmigaOS exec/errors.h system header. -/
def IOERR_OPENFAIL : Int := -1

/-- Exec error code IOERR_ABORTED of the AmigaOS exec/errors.h system header. -/
def IOERR_ABORTED : Int := -2

/-- Exec error code IOERR_NOCMD of the AmigaOS exec/errors.h system header. -/
def IOERR_NOCMD : Int := -3

/-- Four 32-bit big-endian machine words holding a 128-bit CID or CSD
register image, as sd.c reads them (uint32_t bits[4]). -/
structure Words where
  w0 : Nat
  w1 : Nat
  w2 : Nat
  w3 : Nat
deriving DecidableEq, Repr

/-- The decoded CSD register, mirroring sd_card_csd_t field for field. -/
structure Csd where
  csd_structure : Nat := 0
  taac : Nat := 0
  nsac : Nat := 0
  max_transfer_rate : Nat := 0
  card_command_classes : Nat := 0
  read_block_len : Nat := 0
  read_partial_blocks : Nat := 0
  write_block_misalign : Nat := 0
  read_block_misalign : Nat := 0
  dsr_implemented : Nat := 0
  device_size : Nat := 0
  max_read_current_vdd_min : Nat := 0
  max_read_current_vdd_max : Nat := 0
  max_write_current_vdd_min : Nat := 0
  max_write_current_vdd_max : Nat := 0
  device_size_mult : Nat := 0
  erase_single_block : Nat := 0
  erase_sector_size : Nat := 0
  write_protect_group_size : Nat := 0
  write_protect_group : Nat := 0
  write_speed_factor : Nat := 0
  write_block_len : Nat := 0
  write_partial_blocks : Nat := 0
  file_format_group : Nat := 0
  copy_flag : Nat := 0
  perm_write_prot : Nat := 0
  temp_write_prot : Nat := 0
  crc : Nat := 0
  file_format : Nat := 0
deriving DecidableEq, Repr

/-- The decoded CID register, mirroring sd_card_cid_t.  The two app-id
characters and the five product-name characters are individual byte
fields. -/
structure Cid where
  manufacturer_id : Nat := 0
  app_id0 : Nat := 0
  app_id1 : Nat := 0
  pn0 : Nat := 0
  pn1 : Nat := 0
  pn2 : Nat := 0
  pn3 : Nat := 0
  pn4 : Nat := 0
  product_rev : Nat := 0
  product_sn : Nat := 0
  mfg_date : Nat := 0
  crc : Nat := 0
deriving DecidableEq, Repr

/-- The per-card session state, mirroring sd_card_info_t (the spi handle
lives in the Bus state of the transport model instead). -/
structure CardInfo where
  type : CardType := CardType.none
  total_sectors : Nat := 0
  block_size : Nat := 0
  csd : Csd := {}
  cid : Cid := {}
deriving DecidableEq, Repr

/-- The unit record, mirroring the fields of struct IDEUnit that sd.c
reads and writes. -/
structure IDEUnit where
  unitNum : Nat := 0
  cylinders : Nat := 0
  heads : Nat := 0
  sectorsPerTrack : Nat := 0
  logicalSectors : Nat := 0
  blockSize : Nat := 0
  blockShift : Nat := 0
  present : Bool := false
  mediumPresent : Bool := false
  atapi : Bool := false
  deviceType : Nat := 0
  ci : CardInfo := {}
deriving DecidableEq, Repr

/-- CSD decode, mirroring sd_parse_csd of sd.c line for line.  The C
function mutates ci through a pointer and returns an int error; here it
takes the prior CardInfo and returns the error together with the updated
CardInfo, including the partial updates that the C code leaves behind on
the early error returns. -/
def sd_parse_csd (ci : CardInfo) (bits : Words) : Int × CardInfo :=
  let b0 := u32 bits.w0
  let b1 := u32 bits.w1
  let b2 := u32 bits.w2
  let b3 := u32 bits.w3
  let csd1 : Csd :=
    { csd_structure := (b0 >>> 30) &&& 0x2
      taac := (b0 >>> 16) &&& 0xff
      nsac := (b0 >>> 8) &&& 0xff
      max_transfer_rate := b0 &&& 0xff
      card_command_classes := (b1 >>> 20) &&& 0xfff
      read_block_len := (b1 >>> 16) &&& 0xf
      read_partial_blocks := (b1 >>> 15) &&& 0x1
      write_block_misalign := (b1 >>> 14) &&& 0x1
      read_block_misalign := (b1 >>> 13) &&& 0x1
      dsr_implemented := (b1 >>> 12) &&& 0x1 }
  if ci.type = CardType.sd1x ∨ ci.type = CardType.sd20 then
    let dsz := (u32 (b1 <<< 2) &&& 0xffc) ||| ((b2 >>> 30) &&& 0x3)
    let csd2 : Csd :=
      { csd1 with
        device_size := dsz
        max_read_current_vdd_min := (b2 >>> 27) &&& 0x7
        max_read_current_vdd_max := (b2 >>> 24) &&& 0x7
        max_write_current_vdd_min := (b2 >>> 21) &&& 0x7
        max_write_current_vdd_max := (b2 >>> 18) &&& 0x7
        device_size_mult := (b2 >>> 15) &&& 0x7 }
    let total := u32 ((dsz + 1) <<< (csd2.device_size_mult + 2))
    sd_parse_csd_rest { ci with csd := csd2, total_sectors := total } b2 b3
  else if ci.type = CardType.sdhc then
    let dsz := (u32 (b1 <<< 16) &&& 0x3f) ||| ((b2 >>> 16) &&& 0xffff)
    let csd2 : Csd := { csd1 with device_size := dsz }
    let total := u32 ((dsz + 1) <<< (19 - csd2.read_block_len))
    sd_parse_csd_rest { ci with csd := csd2, total_sectors := total } b2 b3
  else
    (sdError_Unsupported, { ci with csd := csd1 })
where
  /-- Shared tail of the decode: the fields after the capacity branch, the
  read/write block-length equality check, and the block-size update. -/
  sd_parse_csd_rest (ci : CardInfo) (b2 b3 : Nat) : Int × CardInfo :=
    let csd3 : Csd :=
      { ci.csd with
        erase_single_block := (b2 >>> 14) &&& 0x1
        erase_sector_size := (b2 >>> 7) &&& 0x7f
        write_protect_group_size := b2 &&& 0x7f
        write_protect_group := (b3 >>> 31) &&& 0x1
        write_speed_factor := (b3 >>> 26) &&& 0x7
        write_block_len := (b3 >>> 22) &&& 0xf
        write_partial_blocks := (b3 >>> 21) &&& 0x1
        file_format_group := (b3 >>> 15) &&& 0x1
        copy_flag := (b3 >>> 14) &&& 0x1
        perm_write_prot := (b3 >>> 13) &&& 0x1
        temp_write_prot := (b3 >>> 12) &&& 0x1
        file_format := (b3 >>> 10) &&& 0x3
        crc := (b3 >>> 1) &&& 0x7f }
    let ci2 := { ci with csd := csd3 }
    if csd3.read_block_len ≠ csd3.write_block_len then
      (sdError_Unsupported, ci2)
    else
      (sdError_OK, { ci2 with block_size := csd3.read_block_len })

/-- CID decode, mirroring sd_parse_cid.  The C function always returns 0,
so the model just produces the decoded record. -/
def sd_parse_cid (bits : Words) : Cid :=
  let b0 := u32 bits.w0
  let b1 := u32 bits.w1
  let b2 := u32 bits.w2
  let b3 := u32 bits.w3
  { manufacturer_id := (b0 >>> 24) &&& 0xff
    app_id0 := (b0 >>> 16) &&& 0xff
    app_id1 := (b0 >>> 8) &&& 0xff
    pn0 := b0 &&& 0xff
    pn1 := (b1 >>> 24) &&& 0xff
    pn2 := (b1 >>> 16) &&& 0xff
    pn3 := (b1 >>> 8) &&& 0xff
    pn4 := b1 &&& 0xff
    product_rev := (b2 >>> 24) &&& 0xff
    product_sn := (u32 (b2 <<< 8) &&& 0xffffff00) ||| ((b3 >>> 24) &&& 0xff)
    mfg_date := (b3 >>> 8) &&& 0xfff
    crc := (b3 >>> 1) &&& 0x7f }

/-- Acceptance test of one (spt, head) candidate in sd_compute_chs_geometry:
the body of the inner loop reduced to the condition under which it breaks. -/
def chsAccept (total spt head : Nat) : Bool :=
  let cyl := total / (head * spt)
  if total ≤ 1048576 then
    decide (cyl ≤ 1023)
  else
    decide (cyl < 16383) || (decide (cyl < 32767) && decide (5 ≤ head)) ||
      decide (cyl ≤ 65535)

/-- Inner head loop of sd_compute_chs_geometry.  The first argument counts
the remaining head candidates (13 for heads 4..16); the loop returns the
head value at exit (the accepted head, or one past the last candidate) and
the last computed cylinder count, exactly as the C variables hold them. -/
def chsInner (total spt : Nat) : Nat → Nat → Nat → Nat × Nat
  | 0, head, cyl => (head, cyl)
  | n + 1, head, _cyl =>
    let c := total / (head * spt)
    if chsAccept total spt head then (head, c)
    else chsInner total spt n (head + 1) c

/-- Outer spt loop of sd_compute_chs_geometry over the table {63,127,255}:
returns (cylinders, heads, sectorsPerTrack) as left in the C variables at
loop exit. -/
def chsCalc (total : Nat) : Nat × Nat × Nat :=
  let r63 := chsInner total 63 13 4 0
  if r63.1 ≤ 16 then (r63.2, r63.1, 63)
  else
    let r127 := chsInner total 127 13 4 r63.2
    if r127.1 ≤ 16 then (r127.2, r127.1, 127)
    else
      let r255 := chsInner total 255 13 4 r127.2
      (r255.2, r255.1, 255)

/-- Block-shift loop of sd_compute_chs_geometry: increments the shift while
blockSize shifted right by it is still greater than 1.  The C loop is
bounded because blockSize is a uint32; fuel 33 covers every uint32 value. -/
def blockShiftCalc : Nat → Nat → Nat → Nat
  | 0, _, s => s
  | f + 1, bs, s => if 1 < bs >>> s then blockShiftCalc f bs (s + 1) else s

/-- Geometry computation, mirroring sd_compute_chs_geometry: fills the CHS
fields from the total sector count and sets blockSize 512 with the derived
blockShift. -/
def sd_compute_chs_geometry (u : IDEUnit) : IDEUnit :=
  let total := u.ci.total_sectors
  let r := chsCalc total
  { u with
    cylinders := r.1
    heads := r.2.1
    sectorsPerTrack := r.2.2
    logicalSectors := total
    blockSize := 512
    blockShift := blockShiftCalc 33 512 0 }

/-- Hex-nibble to ASCII conversion, mirroring sd_hex_nibble_to_char. -/
def sd_hex_nibble_to_char (c : Nat) : Nat :=
  let c1 := (c &&& 0x0f) + 0x30
  if 0x39 < c1 then c1 + 0x07 else c1

/-- Byte-addressed destination buffer for the identify data, modelled as a
function from byte offset to byte value. -/
def Buf := Nat → Nat

/-- Write of a single byte at offset i. -/
def setB (b : Buf) (i v : Nat) : Buf :=
  fun j => if j = i then v else b j

/-- Write of len copies of v starting at offset off (memset). -/
def memsetB (b : Buf) (off len v : Nat) : Buf :=
  fun j => if off ≤ j ∧ j < off + len then v else b j

/-- Write of a byte list starting at offset off (memcpy). -/
def memcpyB (b : Buf) (off : Nat) (src : List Nat) : Buf :=
  fun j => if off ≤ j ∧ j < off + src.length then src.getD (j - off) 0 else b j

/-- Serial-number loop of ata_identify: for i from k-1 down to 0, writes the
hex character of the current low nibble at base+i and shifts the serial
right by 4.  Called with k = 8. -/
def snLoop : Nat → Nat → Nat → Buf → Buf
  | 0, _, _, b => b
  | k + 1, base, sn, b =>
    snLoop k base (sn >>> 4) (setB b (base + k) (sd_hex_nibble_to_char sn))

/-- ATA IDENTIFY synthesis, mirroring ata_identify.  Word offsets 10, 23
and 27 of the UWORD buffer are byte offsets 20, 46 and 54.  Returns the
success flag and the resulting buffer (untouched when no card is
present). -/
def ata_identify (ci : CardInfo) (buffer : Buf) : Bool × Buf :=
  if ci.type = CardType.none then (false, buffer)
  else
    let b0 := memsetB buffer 0 512 0
    let b1 := memsetB b0 46 8 0x20
    let b2 := setB b1 46 (sd_hex_nibble_to_char (ci.cid.product_rev >>> 4))
    let b3 := setB b2 47 0x2e
    let b4 := setB b3 48 (sd_hex_nibble_to_char ci.cid.product_rev)
    let m0 := memsetB b4 54 40 0x20
    let m1 := memcpyB m0 54 [0x6d, 0x66, 0x67, 0x2e]
    let m2 := setB m1 59 (sd_hex_nibble_to_char (ci.cid.manufacturer_id >>> 4))
    let m3 := setB m2 60 (sd_hex_nibble_to_char ci.cid.manufacturer_id)
    let m4 := memcpyB m3 62 [0x53, 0x44, 0x2d, 0x43, 0x41, 0x52, 0x44]
    let m5 := memcpyB m4 70 [ci.cid.pn0, ci.cid.pn1, ci.cid.pn2, ci.cid.pn3, ci.cid.pn4]
    let s0 := memsetB m5 20 20 0x20
    let s1 := snLoop 8 20 ci.cid.product_sn s0
    (true, s1)

/-- Transport events: the observable operations sd.c performs on the SPI
bus (bus arbitration, chip select, byte writes with their data, byte reads
with their length). -/
inductive Ev where
  | obtain
  | release
  | select
  | deselect
  | wr (bs : List Nat)
  | rd (n : Nat)
deriving DecidableEq, Repr

/-- Transport and timer state threaded through the protocol functions:
idx is the position of the next byte in the response stream, tcnt counts
timer reads, taken is the bus-ownership flag of spi_t, and log records the
transport events performed so far. -/
structure Bus where
  idx : Nat := 0
  tcnt : Nat := 0
  taken : Bool := false
  log : List Ev := []
deriving DecidableEq, Repr

/-- Environment (the card and the clock): byte gives the k-th byte ever
read from the bus, tick gives the CIA TOD counter value at the i-th
timer_get call, and spiInitOk tells whether spi_initialize succeeds. -/
structure SpiEnv where
  byte : Nat → Nat
  tick : Nat → Nat
  spiInitOk : Bool := true

/-- Read of one byte from the bus (spi_read with size 1). -/
def spi_read1 (env : SpiEnv) (st : Bus) : Nat × Bus :=
  (u8 (env.byte st.idx),
   { st with idx := st.idx + 1, log := st.log ++ [Ev.rd 1] })

/-- Read of n bytes from the bus in one spi_read call. -/
def spi_readN (env : SpiEnv) (n : Nat) (st : Bus) : List Nat × Bus :=
  ((List.range n).map (fun k => u8 (env.byte (st.idx + k))),
   { st with idx := st.idx + n, log := st.log ++ [Ev.rd n] })

/-- Write of a byte list to the bus in one spi_write call. -/
def spi_write (bs : List Nat) (st : Bus) : Bus :=
  { st with log := st.log ++ [Ev.wr bs] }

/-- Bus acquisition (spi_obtain): idempotent via the bus_taken flag. -/
def spi_obtain (st : Bus) : Bus :=
  if st.taken then st
  else { st with taken := true, log := st.log ++ [Ev.obtain] }

/-- Bus release (spi_release): only when currently held. -/
def spi_release (st : Bus) : Bus :=
  if st.taken then { st with taken := false, log := st.log ++ [Ev.release] }
  else st

/-- Chip-select assert (spi_select). -/
def spi_select (st : Bus) : Bus :=
  { st with log := st.log ++ [Ev.select] }

/-- Chip-select deassert (spi_deselect). -/
def spi_deselect (st : Bus) : Bus :=
  { st with log := st.log ++ [Ev.deselect] }

/-- Tick count for a millisecond duration: the TIMER_MILLIS macro at 60 Hz
tick frequency, rounding up. -/
def TIMER_MILLIS (ms : Nat) : Nat := (ms * 60 + 999) / 1000

/-- 8-bit wraparound difference a - b as computed on uint8_t values. -/
def sub8 (a b : Nat) : Nat := (a + 256 - b % 256) % 256

/-- Read of the 8-bit TOD counter (timer_get). -/
def timer_get (env : SpiEnv) (st : Bus) : Nat × Bus :=
  (u8 (env.tick st.tcnt), { st with tcnt := st.tcnt + 1 })

/-- Deadline creation (timer_set): clamps the ticks to 128 and adds the
current counter value modulo 256. -/
def timer_set (env : SpiEnv) (ticks : Nat) (st : Bus) : Nat × Bus :=
  let t := if 128 < ticks then 128 else ticks
  let g := timer_get env st
  ((g.1 + t) % 256, g.2)

/-- Expiry test (timer_check): expired when the wrapped distance from the
deadline is at most 127. -/
def timer_check (env : SpiEnv) (tm : Nat) (st : Bus) : Bool × Bus :=
  let g := timer_get env st
  (decide (sub8 g.1 tm ≤ 127), g.2)

/-- Busy-wait loop of timer_wait, fueled: spins reading the counter until
the wrapped distance from start reaches ticks. -/
def timer_wait_loop (env : SpiEnv) (ticks start : Nat) : Nat → Bus → Option Bus
  | 0, _ => none
  | f + 1, st =>
    let g := timer_get env st
    if sub8 g.1 start < ticks then timer_wait_loop env ticks start f g.2
    else some g.2

/-- Fixed settle delay (timer_wait). -/
def timer_wait (env : SpiEnv) (ticks : Nat) (F : Nat) (st : Bus) : Option Bus :=
  let g := timer_get env st
  timer_wait_loop env ticks (g.1) F g.2

/-- Ready-wait polling loop of sd_wait_ready, fueled: reads one byte per
iteration and stops on 0xff or on deadline expiry, returning the last byte
read. -/
def sd_wait_ready_loop (env : SpiEnv) (tm : Nat) : Nat → Bus → Option (Nat × Bus)
  | 0, _ => none
  | f + 1, st =>
    let r := spi_read1 env st
    if r.1 = 0xff then some (r.1, r.2)
    else
      let c := timer_check env tm r.2
      if c.1 then some (r.1, c.2)
      else sd_wait_ready_loop env tm f c.2

/-- Ready wait (sd_wait_ready): 500 ms deadline, then the polling loop;
returns 0 when the card presented 0xff and Timeout otherwise. -/
def sd_wait_ready (env : SpiEnv) (F : Nat) (st : Bus) : Option (Int × Bus) :=
  let t := timer_set env (TIMER_MILLIS 500) st
  match sd_wait_ready_loop env t.1 F t.2 with
  | none => none
  | some (b, st2) =>
    some (if b = 0xff then sdError_OK else sdError_Timeout, st2)

/-- Deselect ritual (sd_deselect): deassert chip select, clock out 8 more
cycles with one 0xff write, release the bus. -/
def sd_deselect (st : Bus) : Bus :=
  spi_release (spi_write [0xff] (spi_deselect st))

/-- Select ritual (sd_select): obtain the bus, assert chip select, wait
for ready; on timeout deassert chip select and report Timeout. -/
def sd_select (env : SpiEnv) (F : Nat) (st : Bus) : Option (Int × Bus) :=
  let st1 := spi_select (spi_obtain st)
  match sd_wait_ready env F st1 with
  | none => none
  | some (r, st2) =>
    if r = 0 then some (0, st2)
    else some (sdError_Timeout, spi_deselect st2)

/-- Response polling loop of sd_send_cmd: up to n byte reads, stopping
early on a byte with the top bit clear, returning the last byte read.
Called with n = 10 (MAX_RESPONSE_POLLS). -/
def sd_poll_resp (env : SpiEnv) : Nat → Bus → Nat × Bus
  | 0, st => (0, st)
  | 1, st => spi_read1 env st
  | n + 2, st =>
    let r := spi_read1 env st
    if r.1 &&& 0x80 = 0 then (r.1, r.2)
    else sd_poll_resp env (n + 1) r.2

/-- Command frame of sd_send_cmd: start byte 0x40|cmd, 32-bit big-endian
argument, and the fixed or dummy CRC byte. -/
def cmdFrame (cmd arg : Nat) : List Nat :=
  [0x40 ||| cmd, (arg >>> 24) % 256, (arg >>> 16) % 256, (arg >>> 8) % 256,
   arg % 256,
   if cmd = 0 then 0x95 else if cmd = 8 then 0x87 else 0x01]

/-- Plain command transmission (sd_send_cmd without the ACMD wrapper):
deselect/select-and-wait except for CMD12, frame write, the extra skipped
byte for CMD12, then response polling. -/
def sd_send_cmd_core (env : SpiEnv) (F : Nat) (cmd arg : Nat) (st : Bus) :
    Option (Nat × Bus) :=
  if cmd = 12 then
    let st3 := spi_write (cmdFrame cmd arg) st
    let sk := spi_read1 env st3
    some (sd_poll_resp env 10 sk.2)
  else
    match sd_select env F (sd_deselect st) with
    | none => none
    | some (r, st1) =>
      if r < 0 then some (0xff, st1)
      else
        let st3 := spi_write (cmdFrame cmd arg) st1
        some (sd_poll_resp env 10 st3)

/-- Command transmission (sd_send_cmd): sends CMD55 first for application
commands and aborts early when its response exceeds 1. -/
def sd_send_cmd (env : SpiEnv) (F : Nat) (cmd arg : Nat) (st : Bus) :
    Option (Nat × Bus) :=
  if cmd &&& 0x80 ≠ 0 then
    match sd_send_cmd_core env F 55 0 st with
    | none => none
    | some (r, st1) =>
      if 1 < r then some (r, st1)
      else sd_send_cmd_core env F (cmd &&& 0x7f) arg st1
  else sd_send_cmd_core env F cmd arg st

/-- Extended response fetch (sd_get_r7_resp): four bytes assembled
big-endian. -/
def sd_get_r7_resp (env : SpiEnv) (st : Bus) : Nat × Bus :=
  let r := spi_readN env 4 st
  ((r.1.getD 0 0) <<< 24 ||| (r.1.getD 1 0) <<< 16 |||
     (r.1.getD 2 0) <<< 8 ||| r.1.getD 3 0, r.2)

/-- Data-token wait loop of sd_read_block, fueled: reads bytes while they
are 0xff and the deadline has not expired, returning the last byte read. -/
def sd_read_block_tok (env : SpiEnv) (tm : Nat) : Nat → Bus → Option (Nat × Bus)
  | 0, _ => none
  | f + 1, st =>
    let r := spi_read1 env st
    if r.1 = 0xff then
      let c := timer_check env tm r.2
      if c.1 then some (r.1, c.2)
      else sd_read_block_tok env tm f c.2
    else some (r.1, r.2)

/-- Block read (sd_read_block): waits for the 0xfe data-start token under a
500 ms deadline, then reads the payload and two CRC bytes. -/
def sd_read_block (env : SpiEnv) (F : Nat) (size : Nat) (st : Bus) :
    Option (Int × List Nat × Bus) :=
  let t := timer_set env (TIMER_MILLIS 500) st
  match sd_read_block_tok env t.1 F t.2 with
  | none => none
  | some (tok, st2) =>
    if tok ≠ 0xfe then some (sdError_Timeout, [], st2)
    else
      let d := spi_readN env size st2
      let c := spi_readN env 2 d.2
      some (sdError_OK, d.1, c.2)

/-- Block write (sd_write_block): ready wait, token byte, and unless the
token is the stop token 0xfd, 512 payload bytes, two dummy CRC bytes and
the data-response check (low five bits must be 0b00101). -/
def sd_write_block (env : SpiEnv) (F : Nat) (data : List Nat) (token : Nat)
    (st : Bus) : Option (Int × Bus) :=
  match sd_wait_ready env F st with
  | none => none
  | some (r, st1) =>
    if r < 0 then some (sdError_Timeout, st1)
    else
      let st2 := spi_write [token] st1
      if token ≠ 0xfd then
        let st3 := spi_write data st2
        let st4 := spi_write [0xff, 0xff] st3
        let rr := spi_read1 env st4
        if rr.1 &&& 0x1f = 0x05 then some (sdError_OK, rr.2)
        else some (sdError_BadResponse, rr.2)
      else some (sdError_OK, st2)

/-- Operating-condition polling loop of ata_init_unit (both the ACMD41
loop of the SDv2 path and the ACMD41/CMD1 loop of the pre-v2 path have
this exact shape): while the command response is positive, keep polling;
when the deadline has expired, invalidate the card type to none, but keep
polling (the C loop has no break).  Fueled on its first argument. -/
def sd_init_poll (env : SpiEnv) (F cmd arg tm : Nat) :
    Nat → CardType → Bus → Option (CardType × Bus)
  | 0, _, _ => none
  | f + 1, ty, st =>
    match sd_send_cmd env F cmd arg st with
    | none => none
    | some (r, st1) =>
      if 0 < r then
        let c := timer_check env tm st1
        sd_init_poll env F cmd arg tm f (if c.1 then CardType.none else ty) c.2
      else some (ty, st1)

/-- Ten single-byte 0xff writes of the reset sequence. -/
def resetClocks : Nat → Bus → Bus
  | 0, st => st
  | k + 1, st => resetClocks k (spi_write [0xff] st)

/-- Reset step of ata_init_unit: obtain the bus, deselect, clock out ten
0xff bytes, and wait the 20 ms settle delay. -/
def sd_reset (env : SpiEnv) (F : Nat) (st : Bus) : Option Bus :=
  let st1 := spi_deselect (spi_obtain st)
  timer_wait env (TIMER_MILLIS 20) F (resetClocks 10 st1)

/-- Continuation of the SDv2 branch of sd_detect after the ACMD41
operating-condition poll: the OCR read (CMD58) and the SDHC
classification. -/
def sd_detect_v2_tail (env : SpiEnv) (F : Nat) :
    Option (CardType × Bus) → Option (CardType × Bus)
  | none => none
  | some (ty, st3) =>
    if ty ≠ CardType.none then
      match sd_send_cmd env F 58 0 st3 with
      | none => none
      | some (r58, st4) =>
        if r58 = 0 then
          let o2 := sd_get_r7_resp env st4
          some ((if o2.1 &&& 0x40000000 ≠ 0 then CardType.sdhc else ty), o2.2)
        else some (CardType.none, st4)
    else some (ty, st3)

/-- Card-type detection of ata_init_unit: CMD0, the CMD8 interface
condition probe, the SDv2 branch (ACMD41 poll with HCS, OCR read, SDHC
classification) and the pre-v2 branch (ACMD41 probe, SD1/MMC poll, CMD16
block length).  Returns the resulting card type. -/
def sd_detect (env : SpiEnv) (F : Nat) (st : Bus) : Option (CardType × Bus) :=
  match sd_send_cmd env F 0 0 st with
  | none => none
  | some (r0, st1) =>
    if r0 ≠ 1 then some (CardType.none, st1)
    else
      match sd_send_cmd env F 8 0x1aa st1 with
      | none => none
      | some (r8, st2) =>
        if r8 = 1 then
          let o := sd_get_r7_resp env st2
          if o.1 = 0x000001aa then
            let t := timer_set env (TIMER_MILLIS 1000) o.2
            sd_detect_v2_tail env F
              (sd_init_poll env F 169 0x40000000 t.1 F CardType.sd20 t.2)
          else some (CardType.none, o.2)
        else
          match sd_send_cmd env F 169 0 st2 with
          | none => none
          | some (rp, st3) =>
            let ty0 := if rp ≤ 1 then CardType.sd1x else CardType.mmc
            let cmd := if rp ≤ 1 then 169 else 1
            let t := timer_set env (TIMER_MILLIS 1000) st3
            match sd_init_poll env F cmd 0 t.1 F ty0 t.2 with
            | none => none
            | some (ty1, st4) =>
              if ty1 ≠ CardType.none then
                match sd_send_cmd env F 16 512 st4 with
                | none => none
                | some (r16, st5) =>
                  if 0 < r16 then some (CardType.none, st5)
                  else some (ty1, st5)
              else some (ty1, st4)

/-- Big-endian assembly of a 16-byte block into the four uint32 words of
the resp array, as the big-endian m68k target reads them. -/
def wordsOf (d : List Nat) : Words :=
  { w0 := (d.getD 0 0) <<< 24 ||| (d.getD 1 0) <<< 16 ||| (d.getD 2 0) <<< 8 ||| d.getD 3 0
    w1 := (d.getD 4 0) <<< 24 ||| (d.getD 5 0) <<< 16 ||| (d.getD 6 0) <<< 8 ||| d.getD 7 0
    w2 := (d.getD 8 0) <<< 24 ||| (d.getD 9 0) <<< 16 ||| (d.getD 10 0) <<< 8 ||| d.getD 11 0
    w3 := (d.getD 12 0) <<< 24 ||| (d.getD 13 0) <<< 16 ||| (d.getD 14 0) <<< 8 ||| d.getD 15 0 }

/-- Register phase of ata_init_unit: when a card type was detected, read
and decode CID (CMD10) and CSD (CMD9) through the generic block-read path,
propagating the first error; without a card type the phase fails with
NoCard.  Returns the final error and CardInfo. -/
def sd_read_regs (env : SpiEnv) (F : Nat) (ty : CardType) (ci : CardInfo)
    (st : Bus) : Option (Int × CardInfo × Bus) :=
  let ci1 := { ci with type := ty }
  if ty = CardType.none then some (sdError_NoCard, ci1, st)
  else
    match sd_send_cmd env F 10 0 st with
    | none => none
    | some (r10, st1) =>
      if r10 = 0 then
        match sd_read_block env F 16 st1 with
        | none => none
        | some (e1, d1, st2) =>
          if e1 ≠ 0 then some (e1, ci1, st2)
          else
            let ci2 := { ci1 with cid := sd_parse_cid (wordsOf d1) }
            match sd_send_cmd env F 9 0 st2 with
            | none => none
            | some (r9, st3) =>
              if r9 = 0 then
                match sd_read_block env F 16 st3 with
                | none => none
                | some (e2, d2, st4) =>
                  if e2 ≠ 0 then some (e2, ci2, st4)
                  else
                    let p := sd_parse_csd ci2 (wordsOf d2)
                    some (p.1, p.2, st4)
              else some (sdError_BadResponse, ci2, st3)
      else some (sdError_BadResponse, ci1, st1)

/-- Register phase and closing deselect, as the continuation of the
detection step inside sd_bring_up. -/
def sd_bring_up_tail (env : SpiEnv) (F : Nat) (ci : CardInfo) :
    Option (CardType × Bus) → Option (Int × CardInfo × Bus)
  | none => none
  | some (ty, st2) =>
    match sd_read_regs env F ty ci st2 with
    | none => none
    | some (err, ciF, st3) =>
      some (err, ciF, sd_deselect st3)

/-- Bring-up protocol of ata_init_unit between the entry checks and the
final unit update: reset, detection, register read/decode, and the closing
deselect.  Only the card info and the bus are touched here, matching the
C code, which does not write the unit geometry fields in this region. -/
def sd_bring_up (env : SpiEnv) (F : Nat) (ci : CardInfo) (st : Bus) :
    Option (Int × CardInfo × Bus) :=
  match sd_reset env F st with
  | none => none
  | some st1 => sd_bring_up_tail env F ci (sd_detect env F st1)

/-- Final unit update of ata_init_unit from the bring-up outcome: failure
keeps the cleared unit (with whatever card info the bring-up left), and
success marks the unit present and computes the geometry. -/
def ata_init_unit_tail (u0 : IDEUnit) :
    Option (Int × CardInfo × Bus) → Option (Bool × IDEUnit × Bus)
  | none => none
  | some (err, ciF, stF) =>
    if err ≠ sdError_OK then some (false, { u0 with ci := ciF }, stF)
    else
      some (true,
            sd_compute_chs_geometry
              { u0 with ci := ciF, present := true, mediumPresent := true },
            stF)

/-- Unit bring-up (ata_init_unit): zero the unit fields, reject unit
numbers above 0, fail when the SPI interface cannot be opened, run the
bring-up protocol, and on success mark the unit present and compute the
geometry.  Returns the presence boolean and the resulting unit. -/
def ata_init_unit (env : SpiEnv) (F : Nat) (u : IDEUnit) (st : Bus) :
    Option (Bool × IDEUnit × Bus) :=
  let u0 := { u with
              cylinders := 0, heads := 0, sectorsPerTrack := 0, blockSize := 0,
              present := false, mediumPresent := false, atapi := false,
              deviceType := 0 }
  if 0 < u0.unitNum then some (false, u0, st)
  else if env.spiInitOk = false then some (false, u0, st)
  else
    let ci0 := { u0.ci with
                 type := CardType.none, total_sectors := 0, block_size := 9 }
    ata_init_unit_tail u0 (sd_bring_up env F ci0 st)

/-- Decrement of a uint32 loop counter (the --count of the transfer
loops), wrapping modulo 2^32. -/
def dec32 (c : Nat) : Nat := (c + 4294967295) % 4294967296

/-- Per-sector loop of ata_read (the do-while over sd_read_block): breaks
on a negative error, otherwise decrements the counter modulo 2^32 and
continues while it is nonzero.  Fueled on its first explicit argument. -/
def ata_read_loop (env : SpiEnv) (F : Nat) :
    Nat → Nat → Bus → Option (Int × Bus)
  | 0, _, _ => none
  | f + 1, count, st =>
    match sd_read_block env F 512 st with
    | none => none
    | some (e, _d, st1) =>
      if e < 0 then some (e, st1)
      else
        let c2 := dec32 count
        if c2 = 0 then some (e, st1)
        else ata_read_loop env F f c2 st1

/-- Block read entry point (ata_read): NoCard rejection, byte addressing
for non-SDHC cards, the single-sector CMD17 path for count 1, and the
CMD18 multi-sector path with the CMD12 stop sent only when every sector
succeeded.  Ends with the bus deselect and collapses protocol errors into
IOERR_ABORTED. -/
def ata_read (env : SpiEnv) (F : Nat) (lba count : Nat) (ci : CardInfo)
    (st : Bus) : Option (Int × Bus) :=
  if ci.type = CardType.none then some (IOERR_OPENFAIL, st)
  else
    let lba2 := if ci.type ≠ CardType.sdhc then u32 (lba <<< 9) else lba
    if count = 1 then
      match sd_send_cmd env F 17 lba2 st with
      | none => none
      | some (r, st1) =>
        if r = 0 then
          match sd_read_block env F 512 st1 with
          | none => none
          | some (e, _d, st2) =>
            some (if e ≠ 0 then IOERR_ABORTED else 0, sd_deselect st2)
        else some (IOERR_ABORTED, sd_deselect st1)
    else
      match sd_send_cmd env F 18 lba2 st with
      | none => none
      | some (r, st1) =>
        if r = 0 then
          match ata_read_loop env F F count st1 with
          | none => none
          | some (e, st2) =>
            if e = 0 then
              match sd_send_cmd env F 12 0 st2 with
              | none => none
              | some (r12, st3) =>
                some (if (r12 : Int) ≠ 0 then IOERR_ABORTED else 0,
                      sd_deselect st3)
            else some (IOERR_ABORTED, sd_deselect st2)
        else some (IOERR_ABORTED, sd_deselect st1)

/-- Bytes of one 512-byte sector taken from the source buffer at the given
byte offset. -/
def sectorData (bufW : Nat → Nat) (off : Nat) : List Nat :=
  (List.range 512).map (fun k => u8 (bufW (off + k)))

/-- Per-sector loop of ata_write (the do-while over sd_write_block with
the 0xfc multi-block token): breaks on a negative error, advances the
buffer offset, and decrements the counter modulo 2^32. -/
def ata_write_loop (env : SpiEnv) (F : Nat) (bufW : Nat → Nat) :
    Nat → Nat → Nat → Bus → Option (Int × Bus)
  | 0, _, _, _ => none
  | f + 1, off, count, st =>
    match sd_write_block env F (sectorData bufW off) 0xfc st with
    | none => none
    | some (e, st1) =>
      if e < 0 then some (e, st1)
      else
        let c2 := dec32 count
        if c2 = 0 then some (e, st1)
        else ata_write_loop env F bufW f (off + 512) c2 st1

/-- Block write entry point (ata_write): NoCard rejection, byte
addressing for non-SDHC cards, the single-sector CMD24 path, and the
CMD25 multi-sector path with the ACMD23 pre-announcement for SD types,
the 0xfc per-sector tokens, and the 0xfd stop-token write attempted only
when every sector succeeded. -/
def ata_write (env : SpiEnv) (F : Nat) (bufW : Nat → Nat) (lba count : Nat)
    (ci : CardInfo) (st : Bus) : Option (Int × Bus) :=
  if ci.type = CardType.none then some (IOERR_OPENFAIL, st)
  else
    let lba2 := if ci.type ≠ CardType.sdhc then u32 (lba <<< 9) else lba
    if count = 1 then
      match sd_send_cmd env F 24 lba2 st with
      | none => none
      | some (r, st1) =>
        if r = 0 then
          match sd_write_block env F (sectorData bufW 0) 0xfe st1 with
          | none => none
          | some (e, st2) =>
            some (if e ≠ 0 then IOERR_ABORTED else 0, sd_deselect st2)
        else some (IOERR_ABORTED, sd_deselect st1)
    else
      match (if ci.type = CardType.sd1x ∨ ci.type = CardType.sd20 ∨
               ci.type = CardType.sdhc then
               sd_send_cmd env F 151 count st
             else some (0, st)) with
      | none => none
      | some (_rA, stA) =>
        match sd_send_cmd env F 25 lba2 stA with
        | none => none
        | some (r, st1) =>
          if r = 0 then
            match ata_write_loop env F bufW F 0 count st1 with
            | none => none
            | some (e, st2) =>
              if e = 0 then
                match sd_write_block env F [] 0xfd st2 with
                | none => none
                | some (es, st3) =>
                  some (if es ≠ 0 then IOERR_ABORTED else 0, sd_deselect st3)
              else some (IOERR_ABORTED, sd_deselect st2)
          else some (IOERR_ABORTED, sd_deselect st1)

/-- Count of log events satisfying a predicate. -/
def countE (p : Ev → Bool) (l : List Ev) : Nat := (l.filter p).length

/-- Event recognizer for the CMD12 stop-transmission frame: a 6-byte write
whose start byte is 0x40|12. -/
def isStopCmdE (e : Ev) : Bool :=
  match e with
  | Ev.wr l => decide (l.length = 6) && decide (l.getD 0 0 = 0x4c)
  | _ => false

/-- Event recognizer for the 0xfd stop-token write of the multi-block
write path. -/
def isStopTokE (e : Ev) : Bool :=
  match e with
  | Ev.wr l => decide (l = [0xfd])
  | _ => false

/-- Event recognizer for a command frame with the given command index. -/
def isCmdE (c : Nat) (e : Ev) : Bool :=
  match e with
  | Ev.wr l => decide (l.length = 6) && decide (l.getD 0 0 = 0x40 ||| c)
  | _ => false

/-- Event recognizer for a 512-byte sector read. -/
def isDataRdE (e : Ev) : Bool :=
  match e with
  | Ev.rd n => decide (n = 512)
  | _ => false

/-- Event recognizer for a 512-byte sector write. -/
def isDataWrE (e : Ev) : Bool :=
  match e with
  | Ev.wr l => decide (l.length = 512)
  | _ => false

/-- Characterization of the inner head loop: either it stops at the first
accepted head in the scanned range (returning that head and its cylinder
count), or it scans the whole range without acceptance and exits with the
head one past the range and the cylinder count of the last candidate. -/
theorem chsInner_spec (total spt : Nat) : ∀ (n head cp : Nat),
    (∃ h, chsInner total spt n head cp = (h, total / (h * spt)) ∧
       head ≤ h ∧ h < head + n ∧ chsAccept total spt h = true ∧
       ∀ h2, head ≤ h2 → h2 < h → chsAccept total spt h2 = false)
    ∨ ((chsInner total spt n head cp).1 = head + n ∧
       (∀ h2, head ≤ h2 → h2 < head + n → chsAccept total spt h2 = false) ∧
       (chsInner total spt n head cp).2 =
         if n = 0 then cp else total / ((head + n - 1) * spt)) := by
  intro n
  induction n with
  | zero =>
    intro head cp
    right
    refine ⟨rfl, ?_, ?_⟩
    · intro h2 h1 h2lt; omega
    · simp [chsInner]
  | succ m ih =>
    intro head cp
    by_cases hacc : chsAccept total spt head = true
    · left
      exact ⟨head, by simp [chsInner, hacc], Nat.le_refl _, by omega, hacc,
             fun h2 hl hr => by omega⟩
    · have hst : chsInner total spt (m + 1) head cp =
          chsInner total spt m (head + 1) (total / (head * spt)) := by
        simp [chsInner, hacc]
      rcases ih (head + 1) (total / (head * spt)) with
        ⟨h, heq, h1, h2, h3, h4⟩ | ⟨h1, h2, h3⟩
      · left
        refine ⟨h, by rw [hst]; exact heq, by omega, by omega, h3, ?_⟩
        intro h5 hl hr
        rcases Nat.eq_or_lt_of_le hl with he | hgt
        · rw [he] at hacc; simpa using hacc
        · exact h4 h5 hgt hr
      · right
        rw [hst]
        refine ⟨by omega, ?_, ?_⟩
        · intro h5 hl hr
          rcases Nat.eq_or_lt_of_le hl with he | hgt
          · rw [he] at hacc; simpa using hacc
          · exact h2 h5 hgt (by omega)
        · rw [h3]
          have hm1 : ¬ (m + 1 = 0) := by omega
          simp only [hm1, if_false]
          rcases Nat.eq_zero_or_pos m with hm | hm
          · subst hm
            have harith : head + (0 + 1) - 1 = head := by omega
            rw [harith]
            simp
          · have hne : ¬ (m = 0) := by omega
            simp only [hne, if_false]
            have harith : head + 1 + m - 1 = head + (m + 1) - 1 := by omega
            rw [harith]

/-- For any total sector count up to 267386879, the pair (spt 255, head
16) passes the acceptance test, so the nested loops always accept some
pair in range. -/
theorem chsAccept_255_16 (total : Nat) (hB : total ≤ 267386879) :
    chsAccept total 255 16 = true := by
  unfold chsAccept
  by_cases hs : total ≤ 1048576
  · have hd : total / (16 * 255) ≤ 1048576 / (16 * 255) :=
      Nat.div_le_div_right hs
    have h257 : (1048576 : Nat) / (16 * 255) = 257 := by norm_num
    rw [h257] at hd
    simp only [hs, if_true]
    simp
    omega
  · have hd : total / (16 * 255) ≤ 267386879 / (16 * 255) :=
      Nat.div_le_div_right hB
    have h65535 : (267386879 : Nat) / (16 * 255) = 65535 := by norm_num
    rw [h65535] at hd
    simp only [hs, if_false]
    simp
    omega

/-- Characterization of the full nested geometry loop for totals where
acceptance occurs: the returned triple is the first accepted pair in the
iteration order with its cylinder count. -/
theorem chsCalc_spec (total : Nat) (hB : total ≤ 267386879) :
    (4 ≤ (chsCalc total).2.1 ∧ (chsCalc total).2.1 ≤ 16) ∧
    ((chsCalc total).2.2 = 63 ∨ (chsCalc total).2.2 = 127 ∨
       (chsCalc total).2.2 = 255) ∧
    (chsCalc total).1 = total / ((chsCalc total).2.1 * (chsCalc total).2.2) ∧
    chsAccept total (chsCalc total).2.2 (chsCalc total).2.1 = true ∧
    (∀ h2, 4 ≤ h2 → h2 < (chsCalc total).2.1 →
       chsAccept total (chsCalc total).2.2 h2 = false) ∧
    ((chsCalc total).2.2 = 127 →
       ∀ h2, 4 ≤ h2 → h2 ≤ 16 → chsAccept total 63 h2 = false) ∧
    ((chsCalc total).2.2 = 255 →
       ∀ h2, 4 ≤ h2 → h2 ≤ 16 →
         chsAccept total 63 h2 = false ∧ chsAccept total 127 h2 = false) := by
  rcases chsInner_spec total 63 13 4 0 with
    ⟨h63, heq63, hl63, hr63, ha63, hmin63⟩ | ⟨hf63, hnone63, _⟩
  · have hle : h63 ≤ 16 := by omega
    have hcv : chsCalc total = (total / (h63 * 63), h63, 63) := by
      simp only [chsCalc]
      rw [heq63]
      simp [hle]
    rw [hcv]
    refine ⟨⟨hl63, hle⟩, Or.inl rfl, rfl, ha63, ?_, ?_, ?_⟩
    · intro h2 hl hr; exact hmin63 h2 hl hr
    · intro hbad; exact absurd hbad (by norm_num)
    · intro hbad; exact absurd hbad (by norm_num)
  · rcases chsInner_spec total 127 13 4 (chsInner total 63 13 4 0).2 with
      ⟨h127, heq127, hl127, hr127, ha127, hmin127⟩ | ⟨hf127, hnone127, _⟩
    · have hle : h127 ≤ 16 := by omega
      have hcv : chsCalc total = (total / (h127 * 127), h127, 127) := by
        simp only [chsCalc]
        rw [hf63]
        norm_num
        rw [heq127]
        simp [hle]
      rw [hcv]
      refine ⟨⟨hl127, hle⟩, Or.inr (Or.inl rfl), rfl, ha127, ?_, ?_, ?_⟩
      · intro h2 hl hr; exact hmin127 h2 hl hr
      · intro _ h2 hl hr; exact hnone63 h2 hl (by omega)
      · intro hbad; exact absurd hbad (by norm_num)
    · rcases chsInner_spec total 255 13 4
          (chsInner total 127 13 4 (chsInner total 63 13 4 0).2).2 with
        ⟨h255, heq255, hl255, hr255, ha255, hmin255⟩ | ⟨hf255, hnone255, _⟩
      · have hcv : chsCalc total = (total / (h255 * 255), h255, 255) := by
          simp only [chsCalc]
          rw [hf63]
          norm_num
          rw [hf127]
          norm_num
          rw [heq255]
          simp
        rw [hcv]
        refine ⟨⟨hl255, by show h255 ≤ 16; omega⟩, Or.inr (Or.inr rfl), rfl, ha255, ?_, ?_, ?_⟩
        · intro h2 hl hr; exact hmin255 h2 hl hr
        · intro hbad; exact absurd hbad (by norm_num)
        · intro _ h2 hl hr
          exact ⟨hnone63 h2 hl (by omega), hnone127 h2 hl (by omega)⟩
      · exact absurd (chsAccept_255_16 total hB)
          (by simpa using hnone255 16 (by norm_num) (by norm_num))

/-- C1 (amended): for every total sector count up to 267386879 (above
that bound no (spt, head) pair passes the acceptance rule and the loop
exits with heads = 17), sd_compute_chs_geometry returns heads in [4,16]
and sectors-per-track in {63,127,255}, with cylinders equal to
total / (heads * spt), the size-tiered acceptance rule holding at the
returned pair, and the returned pair being the first accepted one in the
nested iteration order (spt 63,127,255 outer, heads 4..16 inner). -/
theorem chs_geometry_first_accept (u : IDEUnit)
    (hB : u.ci.total_sectors ≤ 267386879) :
    (4 ≤ (sd_compute_chs_geometry u).heads ∧
       (sd_compute_chs_geometry u).heads ≤ 16) ∧
    ((sd_compute_chs_geometry u).sectorsPerTrack = 63 ∨
       (sd_compute_chs_geometry u).sectorsPerTrack = 127 ∨
       (sd_compute_chs_geometry u).sectorsPerTrack = 255) ∧
    (sd_compute_chs_geometry u).cylinders =
      u.ci.total_sectors /
        ((sd_compute_chs_geometry u).heads *
          (sd_compute_chs_geometry u).sectorsPerTrack) ∧
    chsAccept u.ci.total_sectors (sd_compute_chs_geometry u).sectorsPerTrack
      (sd_compute_chs_geometry u).heads = true ∧
    (∀ h2, 4 ≤ h2 → h2 < (sd_compute_chs_geometry u).heads →
       chsAccept u.ci.total_sectors
         (sd_compute_chs_geometry u).sectorsPerTrack h2 = false) ∧
    ((sd_compute_chs_geometry u).sectorsPerTrack = 127 →
       ∀ h2, 4 ≤ h2 → h2 ≤ 16 →
         chsAccept u.ci.total_sectors 63 h2 = false) ∧
    ((sd_compute_chs_geometry u).sectorsPerTrack = 255 →
       ∀ h2, 4 ≤ h2 → h2 ≤ 16 →
         chsAccept u.ci.total_sectors 63 h2 = false ∧
           chsAccept u.ci.total_sectors 127 h2 = false) := by
  have hs := chsCalc_spec u.ci.total_sectors hB
  simpa [sd_compute_chs_geometry] using hs

/-- C1 witness: the amended theorem applied at a concrete total sector
count. -/
theorem chs_geometry_first_accept_witness :
    (4 ≤ (sd_compute_chs_geometry { ci := { total_sectors := 1000000 } }).heads ∧
       (sd_compute_chs_geometry { ci := { total_sectors := 1000000 } }).heads ≤ 16) ∧
    chsAccept 1000000
      (sd_compute_chs_geometry { ci := { total_sectors := 1000000 } }).sectorsPerTrack
      (sd_compute_chs_geometry { ci := { total_sectors := 1000000 } }).heads = true :=
  ⟨(chs_geometry_first_accept { ci := { total_sectors := 1000000 } } (by decide)).1,
   (chs_geometry_first_accept { ci := { total_sectors := 1000000 } } (by decide)).2.2.2.1⟩

/-- C1 counterexample: at 267386880 total sectors no candidate pair is
accepted, the loops run off their ranges, and the computed heads value is
17, outside the claimed range [4,16]. -/
theorem chs_geometry_heads_out_of_range :
    (sd_compute_chs_geometry { ci := { total_sectors := 267386880 } }).heads = 17 ∧
    ¬ ((sd_compute_chs_geometry
          { ci := { total_sectors := 267386880 } }).heads ≤ 16) := by
  decide

/-- Modelled from the spec: the full device-size bit field of a version-2
(SDHC/SDXC) CSD register that the capacity formula of the spec refers to:
the six bits of word 1 below bit 6 as the upper part and the sixteen bits
of word 2 above bit 16 as the lower part. -/
def csd_v2_device_size_full (bits : Words) : Nat :=
  ((u32 bits.w1 &&& 0x3f) <<< 16) ||| ((u32 bits.w2 >>> 16) &&& 0xffff)

/-- C5: the SDHC branch of sd_parse_csd computes the upper part of the
device-size field as (bits[1] << 16) & 0x3f, which is identically zero
(first conjunct), so the decoded device size keeps only the low sixteen
bits.  At a CSD with device-size upper bits 000001, read-block-length 9
and matching write-block-length, the code yields 1024 total sectors while
the formula of the claim over the full device-size field yields
67109888. -/
theorem csd_sdhc_device_size_truncated :
    (∀ w1 : Nat, u32 (u32 w1 <<< 16) &&& 0x3f = 0) ∧
    (sd_parse_csd { type := CardType.sdhc }
        ⟨0, 0x00090001, 0, 0x02400000⟩).1 = sdError_OK ∧
    (sd_parse_csd { type := CardType.sdhc }
        ⟨0, 0x00090001, 0, 0x02400000⟩).2.total_sectors = 1024 ∧
    csd_v2_device_size_full ⟨0, 0x00090001, 0, 0x02400000⟩ = 65536 ∧
    u32 ((csd_v2_device_size_full ⟨0, 0x00090001, 0, 0x02400000⟩ + 1) <<<
        (19 - 9)) = 67109888 ∧
    (1024 : Nat) ≠ 67109888 := by
  refine ⟨?_, by decide, by decide, by decide, by decide, by decide⟩
  intro w1
  have h63 : ∀ x : Nat, x &&& 0x3f = x % 64 := by
    intro x
    have h := Nat.and_pow_two_sub_one_eq_mod x 6
    norm_num at h
    exact h
  rw [h63]
  simp only [u32, Nat.shiftLeft_eq]
  norm_num
  omega

/-- C7: for every CSD register image whose read block-length exponent
(bits 19..16 of word 1) differs from its write block-length exponent
(bits 25..22 of word 3), sd_parse_csd returns Unsupported, whatever the
card type: the supported types reach the explicit mismatch check, and all
other types already fail with Unsupported at the capacity branch. -/
theorem csd_mismatch_unsupported (ci : CardInfo) (bits : Words)
    (hm : (u32 bits.w1 >>> 16) &&& 0xf ≠ (u32 bits.w3 >>> 22) &&& 0xf) :
    (sd_parse_csd ci bits).1 = sdError_Unsupported := by
  cases hct : ci.type <;>
    simp [sd_parse_csd, sd_parse_csd.sd_parse_csd_rest, hct, hm,
          sdError_Unsupported]

/-- C7 witness: the mismatch theorem applied at a concrete register image
with read block-length 9 and write block-length 10. -/
theorem csd_mismatch_unsupported_witness :
    (sd_parse_csd { type := CardType.sd20 }
        ⟨0, 0x00090000, 0, 0x02800000⟩).1 = sdError_Unsupported :=
  csd_mismatch_unsupported { type := CardType.sd20 }
    ⟨0, 0x00090000, 0, 0x02800000⟩ (by decide)

theorem setB_lookup (b : Buf) (i v j : Nat) :
    setB b i v j = if j = i then v else b j := rfl

theorem memsetB_lookup (b : Buf) (off len v j : Nat) :
    memsetB b off len v j = if off ≤ j ∧ j < off + len then v else b j := rfl

theorem memcpyB_lookup (b : Buf) (off : Nat) (src : List Nat) (j : Nat) :
    memcpyB b off src j =
      if off ≤ j ∧ j < off + src.length then src.getD (j - off) 0 else b j := rfl

/-- C4 (amended): on a card-present unit ata_identify succeeds; the model
field at byte offset 54 is 40 bytes beginning with "mfg." and containing
"SD-CARD" at offset 8 of the field, space-padded around the embedded hex
manufacturer id (field bytes 5..6) and five product-name bytes (field
bytes 16..20); and the serial field at byte offset 20 is 20 bytes whose
FIRST eight characters are the uppercase-hex encoding of the 32-bit
serial number, most significant nibble first, the remaining twelve bytes
being spaces.  (The claim places the hex digits in the last eight bytes
of the serial field; the code writes them to the first eight and leaves
the last twelve as spaces.) -/
theorem ata_identify_fields (ci : CardInfo) (buf : Buf)
    (h : ci.type ≠ CardType.none) :
    (ata_identify ci buf).1 = true ∧
    ((ata_identify ci buf).2 54 = 0x6d ∧ (ata_identify ci buf).2 55 = 0x66 ∧
     (ata_identify ci buf).2 56 = 0x67 ∧ (ata_identify ci buf).2 57 = 0x2e) ∧
    ((ata_identify ci buf).2 62 = 0x53 ∧ (ata_identify ci buf).2 63 = 0x44 ∧
     (ata_identify ci buf).2 64 = 0x2d ∧ (ata_identify ci buf).2 65 = 0x43 ∧
     (ata_identify ci buf).2 66 = 0x41 ∧ (ata_identify ci buf).2 67 = 0x52 ∧
     (ata_identify ci buf).2 68 = 0x44) ∧
    ((ata_identify ci buf).2 58 = 0x20 ∧ (ata_identify ci buf).2 61 = 0x20 ∧
     (ata_identify ci buf).2 69 = 0x20) ∧
    ((ata_identify ci buf).2 59 =
       sd_hex_nibble_to_char (ci.cid.manufacturer_id >>> 4) ∧
     (ata_identify ci buf).2 60 =
       sd_hex_nibble_to_char ci.cid.manufacturer_id) ∧
    ((ata_identify ci buf).2 70 = ci.cid.pn0 ∧
     (ata_identify ci buf).2 71 = ci.cid.pn1 ∧
     (ata_identify ci buf).2 72 = ci.cid.pn2 ∧
     (ata_identify ci buf).2 73 = ci.cid.pn3 ∧
     (ata_identify ci buf).2 74 = ci.cid.pn4) ∧
    (∀ j, 75 ≤ j → j ≤ 93 → (ata_identify ci buf).2 j = 0x20) ∧
    (∀ j, 28 ≤ j → j ≤ 39 → (ata_identify ci buf).2 j = 0x20) ∧
    (∀ j, j < 8 → (ata_identify ci buf).2 (20 + j) =
       sd_hex_nibble_to_char (ci.cid.product_sn >>> (4 * (7 - j)))) := by
  refine ⟨?_, ⟨?_, ?_, ?_, ?_⟩, ⟨?_, ?_, ?_, ?_, ?_, ?_, ?_⟩, ⟨?_, ?_, ?_⟩,
         ⟨?_, ?_⟩, ⟨?_, ?_, ?_, ?_, ?_⟩, ?_, ?_, ?_⟩ <;>
    simp only [ata_identify, h, if_neg, ite_false]
  case _ => rfl
  all_goals
    first
    | (intro j h1 h2
       interval_cases j <;>
         simp [snLoop, setB_lookup, memsetB_lookup, memcpyB_lookup,
               ← Nat.shiftRight_add])
    | (intro j h1
       interval_cases j <;>
         simp [snLoop, setB_lookup, memsetB_lookup, memcpyB_lookup,
               ← Nat.shiftRight_add])
    | simp [snLoop, setB_lookup, memsetB_lookup, memcpyB_lookup]

/-- C4 witness: the amended theorem applied at a concrete card info. -/
theorem ata_identify_fields_witness :
    (ata_identify
        { type := CardType.sd20, cid := { product_sn := 0x89ABCDEF } }
        (fun _ => 7)).1 = true ∧
    (ata_identify
        { type := CardType.sd20, cid := { product_sn := 0x89ABCDEF } }
        (fun _ => 7)).2 54 = 0x6d :=
  ⟨(ata_identify_fields
      { type := CardType.sd20, cid := { product_sn := 0x89ABCDEF } }
      (fun _ => 7) (by decide)).1,
   (ata_identify_fields
      { type := CardType.sd20, cid := { product_sn := 0x89ABCDEF } }
      (fun _ => 7) (by decide)).2.1.1⟩

/-- C4 counterexample: at serial number 0x89ABCDEF the claim would put
the hex digit of the most significant nibble (the character 8, 0x38) at
byte 12 of the serial field (absolute offset 32); the code leaves a space
there and writes that digit at byte 0 of the field (absolute offset 20)
instead. -/
theorem ata_identify_serial_not_last :
    (ata_identify { type := CardType.sd20, cid := { product_sn := 0x89ABCDEF } }
        (fun _ => 0)).2 32 = 0x20 ∧
    sd_hex_nibble_to_char (0x89ABCDEF >>> (4 * 7)) = 0x38 ∧
    (0x20 : Nat) ≠ 0x38 ∧
    (ata_identify { type := CardType.sd20, cid := { product_sn := 0x89ABCDEF } }
        (fun _ => 0)).2 20 = 0x38 := by
  refine ⟨?_, by decide, by decide, ?_⟩ <;> decide

/-- Response environment built from a byte list (bytes beyond the list
read as 0xff, the idle-bus value) with a clock advancing 16 ticks per
timer read. -/
def envOfList (l : List Nat) : SpiEnv :=
  { byte := fun k => l.getD k 0xff, tick := fun i => (i * 16) % 256 }

/-- Environment of a bus with no responding card: every byte reads 0. -/
def envZeroTrace : SpiEnv :=
  { byte := fun _ => 0, tick := fun i => (i * 16) % 256 }

/-- C8: a read or a write on a unit whose card type is none returns
IOERR_OPENFAIL with the transport state returned untouched: no bus
obtain, select, read or write is performed (the event log is unchanged). -/
theorem ata_rw_no_card (env : SpiEnv) (F : Nat) (bufW : Nat → Nat)
    (lba count : Nat) (ci : CardInfo) (st : Bus)
    (h : ci.type = CardType.none) :
    ata_read env F lba count ci st = some (IOERR_OPENFAIL, st) ∧
    ata_write env F bufW lba count ci st = some (IOERR_OPENFAIL, st) := by
  constructor <;> simp [ata_read, ata_write, h]

/-- C8 witness: the no-card theorem applied at concrete arguments. -/
theorem ata_rw_no_card_witness :
    ata_read envZeroTrace 3 5 2 {} {} = some (IOERR_OPENFAIL, {}) ∧
    ata_write envZeroTrace 3 (fun _ => 0) 5 2 {} {} =
      some (IOERR_OPENFAIL, {}) :=
  ata_rw_no_card envZeroTrace 3 (fun _ => 0) 5 2 {} {} (by decide)

/-- Inversion of ata_init_unit: every result is either a failure with
the unit geometry and presence cleared, or a success whose unit went
through sd_compute_chs_geometry and therefore has block size 512 and
block shift 9. -/
theorem ata_init_unit_inv (env : SpiEnv) (F : Nat) (u : IDEUnit) (st : Bus)
    (r : Bool × IDEUnit × Bus)
    (heq : ata_init_unit env F u st = some r) :
    (r.1 = false ∧ r.2.1.cylinders = 0 ∧ r.2.1.heads = 0 ∧
       r.2.1.sectorsPerTrack = 0 ∧ r.2.1.blockSize = 0 ∧
       r.2.1.present = false ∧ r.2.1.mediumPresent = false)
    ∨ (r.1 = true ∧ r.2.1.blockSize = 512 ∧ r.2.1.blockShift = 9) := by
  simp only [ata_init_unit, ata_init_unit_tail] at heq
  split at heq
  · injection heq with h2; subst h2; left; simp
  · split at heq
    · injection heq with h2; subst h2; left; simp
    · split at heq
      · exact Option.noConfusion heq
      · split at heq
        · injection heq with h2; subst h2; left; simp
        · injection heq with h2; subst h2; right
          refine ⟨rfl, ?_, ?_⟩
          · simp [sd_compute_chs_geometry]
          · simp [sd_compute_chs_geometry]
            decide

/-- C2 (amended): every execution of ata_init_unit that returns false
leaves the unit geometry and presence cleared: cylinders, heads,
sectorsPerTrack and blockSize are 0 and present and mediumPresent are
false.  The stored card type, however, is not always none on failure:
failures of the register read/decode phase leave the detected type
behind (see the counterexample). -/
theorem ata_init_unit_false_cleared (env : SpiEnv) (F : Nat) (u : IDEUnit)
    (st : Bus)
    (h : (ata_init_unit env F u st).map (fun r => r.1) = some false) :
    (ata_init_unit env F u st).map
      (fun r => (r.2.1.cylinders, r.2.1.heads, r.2.1.sectorsPerTrack,
                 r.2.1.blockSize, r.2.1.present, r.2.1.mediumPresent)) =
      some (0, 0, 0, 0, false, false) := by
  cases hres : ata_init_unit env F u st with
  | none => rw [hres] at h; simp at h
  | some r =>
    rw [hres] at h
    simp at h
    have hfalse : r.1 = false := h
    rcases ata_init_unit_inv env F u st r hres with
      ⟨_, hc, hh, hs, hb, hp, hm⟩ | ⟨htrue, _, _⟩
    · simp [hc, hh, hs, hb, hp, hm]
    · rw [htrue] at hfalse; exact Bool.noConfusion hfalse

/-- C2 witness: the cleared-on-failure theorem applied to a bring-up on a
bus with no responding card. -/
theorem ata_init_unit_false_cleared_witness :
    (ata_init_unit envZeroTrace 6 {} {}).map
      (fun r => (r.2.1.cylinders, r.2.1.heads, r.2.1.sectorsPerTrack,
                 r.2.1.blockSize, r.2.1.present, r.2.1.mediumPresent)) =
      some (0, 0, 0, 0, false, false) :=
  ata_init_unit_false_cleared envZeroTrace 6 {} {} (by decide)

/-- Response trace of a bring-up that detects an SD v2.0 card (CMD0 idle,
CMD8 echo 0x1aa, ACMD41 immediately ready, CMD58 OCR without the
high-capacity bit) and then rejects the CMD10 CID read with status 0x04. -/
def envC2trace : SpiEnv := envOfList
  [0xff, 0x01, 0xff, 0x01, 0x00, 0x00, 0x01, 0xaa, 0xff, 0x01, 0xff, 0x00,
   0xff, 0x00, 0x00, 0x00, 0x00, 0x00, 0xff, 0x04]

/-- C2 counterexample: the CID-read-rejected bring-up returns false with
geometry and presence cleared, but the stored card type is sd20, not
none, contradicting the fully-zeroed claim on the very failure class it
names (register read failure). -/
theorem ata_init_unit_false_type_not_none :
    (ata_init_unit envC2trace 6 {} {}).map
      (fun r => (r.1, r.2.1.present, r.2.1.mediumPresent, r.2.1.cylinders,
                 r.2.1.ci.type)) =
      some (false, false, false, 0, CardType.sd20) ∧
    CardType.sd20 ≠ CardType.none := by
  exact ⟨by decide, by decide⟩

/-- C9 (amended): every successful bring-up sets the unit block size to
the fixed sector size 512 with block shift 9, which is the smallest shift
taking 512 to 1.  The block size equals 1 shifted left by the CSD
read-block-length exponent only when that exponent is 9; the
counterexample exhibits a successful bring-up with exponent 10. -/
theorem ata_init_unit_success_block_size (env : SpiEnv) (F : Nat)
    (u : IDEUnit) (st : Bus)
    (h : (ata_init_unit env F u st).map (fun r => r.1) = some true) :
    (ata_init_unit env F u st).map
      (fun r => (r.2.1.blockSize, r.2.1.blockShift)) = some (512, 9) ∧
    (512 : Nat) >>> 9 = 1 ∧ (∀ s, s < 9 → 1 < (512 : Nat) >>> s) := by
  refine ⟨?_, by decide, by decide⟩
  cases hres : ata_init_unit env F u st with
  | none => rw [hres] at h; simp at h
  | some r =>
    rw [hres] at h
    simp at h
    have htrue : r.1 = true := h
    rcases ata_init_unit_inv env F u st r hres with
      ⟨hfalse, _, _, _, _, _, _⟩ | ⟨_, hb, hsh⟩
    · rw [hfalse] at htrue; exact Bool.noConfusion htrue
    · simp [hb, hsh]

/-- Response trace of a successful SD v1.x bring-up (CMD0 idle, CMD8
rejected with 0x04, ACMD41 probe idle then ready, CMD16 ok) whose CSD
reports read and write block-length exponents of 10. -/
def envC9trace : SpiEnv := envOfList
  [0xff, 0x01, 0xff, 0x04, 0xff, 0x01, 0xff, 0x01, 0xff, 0x01, 0xff, 0x00,
   0xff, 0x00, 0xff, 0x00, 0xfe, 0, 0, 0, 0, 0, 0, 0, 0, 0, 0, 0, 0, 0, 0,
   0, 0, 0, 0, 0xff, 0x00, 0xfe, 0, 0, 0, 0, 0x00, 0x0a, 0x00, 0x00, 0, 0,
   0, 0, 0x02, 0x80, 0x00, 0x00, 0, 0]

/-- C9 counterexample: a successful bring-up whose CSD read-block-length
exponent is 10 still gets unit block size 512, but 1 shifted left by the
exponent is 1024, so the claimed equality fails. -/
theorem ata_init_unit_block_size_not_csd :
    (ata_init_unit envC9trace 6 {} {}).map
      (fun r => (r.1, r.2.1.blockSize, r.2.1.ci.csd.read_block_len)) =
      some (true, 512, 10) ∧
    (1 : Nat) <<< 10 = 1024 ∧ (512 : Nat) ≠ 1024 := by
  exact ⟨by decide, by decide, by decide⟩

/-- C9 witness: the block-size theorem applied to the successful
bring-up trace. -/
theorem ata_init_unit_success_block_size_witness :
    (ata_init_unit envC9trace 6 {} {}).map
      (fun r => (r.2.1.blockSize, r.2.1.blockShift)) = some (512, 9) :=
  (ata_init_unit_success_block_size envC9trace 6 {} {} (by decide)).1

/-- Response environment of C3: the card answers CMD0 with idle (0x01)
and CMD8 with idle plus the R7 echo 0x000001aa, and from then on every
byte read is 0xff: the ACMD41 operating-condition poll never reports
ready. -/
def envBusyTrace : SpiEnv :=
  envOfList [0xff, 0x01, 0xff, 0x01, 0x00, 0x00, 0x01, 0xaa]

theorem envBusyTrace_ge (k : Nat) (hk : 8 ≤ k) : envBusyTrace.byte k = 255 := by
  simp only [envBusyTrace, envOfList]
  apply List.getD_eq_default
  simp
  omega

theorem spi_read1_busy (st : Bus) (h : 8 ≤ st.idx) :
    spi_read1 envBusyTrace st =
      (255, { st with idx := st.idx + 1, log := st.log ++ [Ev.rd 1] }) := by
  simp [spi_read1, u8, envBusyTrace_ge st.idx h]

theorem sd_poll_resp_busy : ∀ (n : Nat) (st : Bus), 8 ≤ st.idx → 1 ≤ n →
    ∃ st2, sd_poll_resp envBusyTrace n st = (255, st2) ∧ 8 ≤ st2.idx := by
  intro n
  induction n with
  | zero => intro st _ hn; omega
  | succ m ih =>
    intro st h _
    cases m with
    | zero =>
      refine ⟨{ st with idx := st.idx + 1, log := st.log ++ [Ev.rd 1] }, ?_, ?_⟩
      · simpa [sd_poll_resp] using spi_read1_busy st h
      · simp; omega
    | succ k =>
      have hstep : sd_poll_resp envBusyTrace (k + 1 + 1) st =
          sd_poll_resp envBusyTrace (k + 1)
            { st with idx := st.idx + 1, log := st.log ++ [Ev.rd 1] } := by
        simp [sd_poll_resp, spi_read1_busy st h]
      rcases ih { st with idx := st.idx + 1, log := st.log ++ [Ev.rd 1] }
          (by simp; omega) (by omega) with ⟨st2, he, hi⟩
      exact ⟨st2, by rw [hstep, he], hi⟩

theorem sd_wait_ready_busy (f : Nat) (st : Bus) (h : 8 ≤ st.idx) :
    ∃ st2, sd_wait_ready envBusyTrace (f + 1) st = some (0, st2) ∧
      8 ≤ st2.idx := by
  have h2 : 8 ≤ ({ st with tcnt := st.tcnt + 1 } : Bus).idx := by simpa using h
  refine ⟨{ st with tcnt := st.tcnt + 1, idx := st.idx + 1, log := st.log ++ [Ev.rd 1] }, ?_, ?_⟩
  · simp [sd_wait_ready, timer_set, timer_get, sd_wait_ready_loop,
          spi_read1_busy _ h2, sdError_OK]
  · simp; omega

theorem sd_select_busy (f : Nat) (st : Bus) (h : 8 ≤ st.idx) :
    ∃ st2, sd_select envBusyTrace (f + 1) st = some (0, st2) ∧
      8 ≤ st2.idx := by
  have hob : 8 ≤ (spi_select (spi_obtain st)).idx := by
    simp only [spi_select, spi_obtain]
    split <;> simpa using h
  obtain ⟨st2, he, hi⟩ := sd_wait_ready_busy f (spi_select (spi_obtain st)) hob
  refine ⟨st2, ?_, hi⟩
  simp [sd_select, he]

theorem sd_send_cmd_acmd41_busy (f arg : Nat) (st : Bus) (h : 8 ≤ st.idx) :
    ∃ st2, sd_send_cmd envBusyTrace (f + 1) 169 arg st = some (255, st2) ∧
      8 ≤ st2.idx := by
  have hd : 8 ≤ (sd_deselect st).idx := by
    simp only [sd_deselect, spi_release, spi_write, spi_deselect]
    split <;> simpa using h
  obtain ⟨stw, hew, hiw⟩ := sd_select_busy f (sd_deselect st) hd
  have hwr : 8 ≤ (spi_write (cmdFrame 55 0) stw).idx := by
    simpa [spi_write] using hiw
  obtain ⟨stp, hep, hip⟩ :=
    sd_poll_resp_busy 10 (spi_write (cmdFrame 55 0) stw) hwr (by omega)
  refine ⟨stp, ?_, hip⟩
  simp [sd_send_cmd, sd_send_cmd_core, hew, hep]

/-- The operating-condition polling loop never terminates when the card
never reports ready: for any loop fuel, the loop is still running (the
timeout branch only invalidates the card type and does not exit the
loop). -/
theorem sd_init_poll_busy : ∀ (g f tm : Nat) (ty : CardType) (st : Bus),
    8 ≤ st.idx →
    sd_init_poll envBusyTrace (f + 1) 169 1073741824 tm g ty st = none := by
  intro g
  induction g with
  | zero => intro f tm ty st _; rfl
  | succ m ih =>
    intro f tm ty st h
    obtain ⟨st2, he, hi⟩ := sd_send_cmd_acmd41_busy f 1073741824 st h
    have hstep : sd_init_poll envBusyTrace (f + 1) 169 1073741824 tm (m + 1)
        ty st =
        sd_init_poll envBusyTrace (f + 1) 169 1073741824 tm m
          (if (timer_check envBusyTrace tm st2).1 then CardType.none else ty)
          (timer_check envBusyTrace tm st2).2 := by
      simp [sd_init_poll, he]
    rw [hstep]
    apply ih
    simpa [timer_check, timer_get] using hi

/-- The bus state reached by the C3 trace at the entry of the ACMD41
operating-condition poll (after reset, CMD0, CMD8 and the R7 echo). -/
def busyStPoll : Bus :=
  { idx := 8, tcnt := 5, taken := true,
    log := [Ev.obtain, Ev.deselect, Ev.wr [255], Ev.wr [255], Ev.wr [255],
            Ev.wr [255], Ev.wr [255], Ev.wr [255], Ev.wr [255], Ev.wr [255],
            Ev.wr [255], Ev.wr [255], Ev.deselect, Ev.wr [255], Ev.release,
            Ev.obtain, Ev.select, Ev.rd 1, Ev.wr [64, 0, 0, 0, 0, 149],
            Ev.rd 1, Ev.deselect, Ev.wr [255], Ev.release, Ev.obtain,
            Ev.select, Ev.rd 1, Ev.wr [72, 0, 0, 1, 170, 135], Ev.rd 1,
            Ev.rd 4] }

/-- C3: with a card that answers CMD0 and CMD8 but whose ACMD41
operating-condition poll never reports ready, ata_init_unit never
returns, for any fuel: the init-timeout branch of the polling loop only
invalidates the card type and never exits the loop, so bring-up does not
terminate and in particular never returns false with the unit absent.
This is the divergence the claim (and section 5 of the spec, which
requires every blocking loop to be bounded) rules out. -/
theorem ata_init_unit_never_ready_diverges (F : Nat) :
    ata_init_unit envBusyTrace F {} {} = none := by
  cases F with
  | zero => rfl
  | succ f =>
    have hpre : ata_init_unit envBusyTrace (f + 1) {} {} =
        ata_init_unit_tail {}
          (sd_bring_up_tail envBusyTrace (f + 1)
            { type := CardType.none, total_sectors := 0, block_size := 9 }
            (sd_detect_v2_tail envBusyTrace (f + 1)
              (sd_init_poll envBusyTrace (f + 1) 169 1073741824 124 (f + 1)
                CardType.sd20 busyStPoll))) := rfl
    rw [hpre,
        sd_init_poll_busy (f + 1) f 124 CardType.sd20 busyStPoll (by decide)]
    rfl

theorem countE_append (p : Ev → Bool) (l1 l2 : List Ev) :
    countE p (l1 ++ l2) = countE p l1 + countE p l2 := by
  simp [countE, List.filter_append]

theorem countE_nil (p : Ev → Bool) : countE p [] = 0 := rfl

theorem countE_cons (p : Ev → Bool) (e : Ev) (l : List Ev) :
    countE p (e :: l) = (if p e = true then 1 else 0) + countE p l := by
  cases hpe : p e <;> simp [countE, List.filter_cons, hpe, Nat.add_comm]

theorem countE_snoc (p : Ev → Bool) (l : List Ev) (e : Ev) :
    countE p (l ++ [e]) = countE p l + (if p e = true then 1 else 0) := by
  rw [countE_append, countE_cons, countE_nil]
  simp

/-- Predicates on events that do not count reads, bus-arbitration or
chip-select events, nor the 0xff filler and dummy-CRC writes.  Both stop
recognizers are of this kind. -/
structure QuietPred (p : Ev → Bool) : Prop where
  rd : ∀ n, p (Ev.rd n) = false
  ob : p Ev.obtain = false
  rel : p Ev.release = false
  sel : p Ev.select = false
  des : p Ev.deselect = false
  ff : p (Ev.wr [255]) = false
  ff2 : p (Ev.wr [255, 255]) = false

theorem quiet_isStopCmdE : QuietPred isStopCmdE :=
  ⟨fun _ => rfl, rfl, rfl, rfl, rfl, by decide, by decide⟩

theorem quiet_isStopTokE : QuietPred isStopTokE :=
  ⟨fun _ => rfl, rfl, rfl, rfl, rfl, by decide, by decide⟩

theorem isStopTokE_wr_of_len (l : List Nat) (hl : l.length ≠ 1) :
    isStopTokE (Ev.wr l) = false := by
  simp only [isStopTokE, decide_eq_false_iff_not]
  intro he
  rw [he] at hl
  simp at hl

theorem isStopCmdE_wr_of_len (l : List Nat) (hl : l.length ≠ 6) :
    isStopCmdE (Ev.wr l) = false := by
  simp [isStopCmdE, hl]

theorem cmdFrame_length (cmd arg : Nat) : (cmdFrame cmd arg).length = 6 := by
  simp [cmdFrame]

theorem isStopCmdE_frame (cmd arg : Nat) (h : 64 ||| cmd ≠ 76) :
    isStopCmdE (Ev.wr (cmdFrame cmd arg)) = false := by
  simp [isStopCmdE, cmdFrame, h]

theorem isStopCmdE_frame12 (arg : Nat) :
    isStopCmdE (Ev.wr (cmdFrame 12 arg)) = true := by
  simp [isStopCmdE, cmdFrame]

theorem isStopTokE_frame (cmd arg : Nat) :
    isStopTokE (Ev.wr (cmdFrame cmd arg)) = false :=
  isStopTokE_wr_of_len _ (by simp [cmdFrame])

theorem sectorData_length (bufW : Nat → Nat) (off : Nat) :
    (sectorData bufW off).length = 512 := by
  simp [sectorData]

theorem spi_read1_log (env : SpiEnv) (st : Bus) :
    (spi_read1 env st).2.log = st.log ++ [Ev.rd 1] := rfl

theorem spi_readN_log (env : SpiEnv) (n : Nat) (st : Bus) :
    (spi_readN env n st).2.log = st.log ++ [Ev.rd n] := rfl

theorem countE_spi_obtain (p : Ev → Bool) (hq : QuietPred p) (st : Bus) :
    countE p (spi_obtain st).log = countE p st.log := by
  unfold spi_obtain
  split
  · rfl
  · simp [countE_snoc, hq.ob]

theorem countE_spi_release (p : Ev → Bool) (hq : QuietPred p) (st : Bus) :
    countE p (spi_release st).log = countE p st.log := by
  unfold spi_release
  split
  · simp [countE_snoc, hq.rel]
  · rfl

theorem countE_sd_deselect (p : Ev → Bool) (hq : QuietPred p) (st : Bus) :
    countE p (sd_deselect st).log = countE p st.log := by
  unfold sd_deselect
  rw [countE_spi_release p hq]
  simp [spi_write, spi_deselect, countE_append, countE_snoc, countE_cons,
        countE_nil, hq.des, hq.ff]

theorem countE_sd_wait_ready_loop (p : Ev → Bool) (hq : QuietPred p)
    (env : SpiEnv) (tm : Nat) : ∀ (F : Nat) (st : Bus) (r : Nat) (st2 : Bus),
    sd_wait_ready_loop env tm F st = some (r, st2) →
    countE p st2.log = countE p st.log := by
  intro F
  induction F with
  | zero => intro st r st2 h; exact absurd h (by simp [sd_wait_ready_loop])
  | succ f ih =>
    intro st r st2 h
    simp only [sd_wait_ready_loop] at h
    split at h
    · injection h with h2
      cases h2
      simp [spi_read1, countE_snoc, hq.rd]
    · split at h
      · injection h with h2
        cases h2
        simp [timer_check, timer_get, spi_read1, countE_snoc, hq.rd]
      · rw [ih _ _ _ h]
        simp [timer_check, timer_get, spi_read1, countE_snoc, hq.rd]

theorem countE_sd_wait_ready (p : Ev → Bool) (hq : QuietPred p)
    (env : SpiEnv) (F : Nat) (st : Bus) (r : Int) (st2 : Bus)
    (h : sd_wait_ready env F st = some (r, st2)) :
    countE p st2.log = countE p st.log := by
  simp only [sd_wait_ready] at h
  split at h
  · exact Option.noConfusion h
  · rename_i b stl heq
    injection h with h2
    cases h2
    rw [countE_sd_wait_ready_loop p hq env _ F _ _ _ heq]
    simp [timer_set, timer_get]

theorem countE_sd_select (p : Ev → Bool) (hq : QuietPred p)
    (env : SpiEnv) (F : Nat) (st : Bus) (r : Int) (st2 : Bus)
    (h : sd_select env F st = some (r, st2)) :
    countE p st2.log = countE p st.log := by
  simp only [sd_select] at h
  split at h
  · exact Option.noConfusion h
  · rename_i rr stw heq
    have hw := countE_sd_wait_ready p hq env F (spi_select (spi_obtain st)) rr stw heq
    have hsel : countE p (spi_select (spi_obtain st)).log = countE p st.log := by
      simp [spi_select, countE_snoc, hq.sel, countE_spi_obtain p hq]
    split at h
    · injection h with h2
      cases h2
      rw [hw, hsel]
    · injection h with h2
      cases h2
      simp [spi_deselect, countE_snoc, hq.des, hw, hsel]

theorem countE_sd_poll_resp (p : Ev → Bool) (hq : QuietPred p)
    (env : SpiEnv) : ∀ (n : Nat) (st : Bus),
    countE p (sd_poll_resp env n st).2.log = countE p st.log := by
  intro n
  induction n with
  | zero => intro st; rfl
  | succ m ih =>
    intro st
    cases m with
    | zero => simp [sd_poll_resp, spi_read1, countE_snoc, hq.rd]
    | succ k =>
      simp only [sd_poll_resp]
      split
      · simp [spi_read1, countE_snoc, hq.rd]
      · rw [ih]
        simp [spi_read1, countE_snoc, hq.rd]

theorem countE_sd_send_cmd_core (p : Ev → Bool) (hq : QuietPred p)
    (env : SpiEnv) (F cmd arg : Nat) (st : Bus) (res : Nat × Bus)
    (hfr : p (Ev.wr (cmdFrame cmd arg)) = false)
    (h : sd_send_cmd_core env F cmd arg st = some res) :
    countE p res.2.log = countE p st.log := by
  simp only [sd_send_cmd_core] at h
  split at h
  · injection h with h2
    subst h2
    rw [countE_sd_poll_resp p hq]
    simp [spi_read1, spi_write, countE_append, countE_cons, countE_nil,
          hq.rd, hfr]
  · split at h
    · exact Option.noConfusion h
    · rename_i rsel stsel heq
      have hs := countE_sd_select p hq env F (sd_deselect st) rsel stsel heq
      rw [countE_sd_deselect p hq] at hs
      split at h
      · injection h with h2
        subst h2
        exact hs
      · injection h with h2
        subst h2
        rw [countE_sd_poll_resp p hq]
        simp [spi_write, countE_snoc, hfr, hs]

theorem countE_sd_send_cmd_core12 (p : Ev → Bool) (hq : QuietPred p)
    (env : SpiEnv) (F arg : Nat) (st : Bus) (res : Nat × Bus)
    (hfr : p (Ev.wr (cmdFrame 12 arg)) = true)
    (h : sd_send_cmd_core env F 12 arg st = some res) :
    countE p res.2.log = countE p st.log + 1 := by
  simp only [sd_send_cmd_core, if_pos rfl] at h
  injection h with h2
  subst h2
  rw [countE_sd_poll_resp p hq]
  simp [spi_read1, spi_write, countE_append, countE_cons, countE_nil,
        hq.rd, hfr]

theorem countE_sd_send_cmd_plain (p : Ev → Bool) (hq : QuietPred p)
    (env : SpiEnv) (F cmd arg : Nat) (st : Bus) (res : Nat × Bus)
    (hbit : cmd &&& 0x80 = 0)
    (hfr : p (Ev.wr (cmdFrame cmd arg)) = false)
    (h : sd_send_cmd env F cmd arg st = some res) :
    countE p res.2.log = countE p st.log := by
  simp only [sd_send_cmd, hbit] at h
  simp at h
  exact countE_sd_send_cmd_core p hq env F cmd arg st res hfr h

theorem countE_sd_send_cmd_12 (p : Ev → Bool) (hq : QuietPred p)
    (env : SpiEnv) (F arg : Nat) (st : Bus) (res : Nat × Bus)
    (hfr : p (Ev.wr (cmdFrame 12 arg)) = true)
    (h : sd_send_cmd env F 12 arg st = some res) :
    countE p res.2.log = countE p st.log + 1 := by
  simp only [sd_send_cmd] at h
  simp at h
  exact countE_sd_send_cmd_core12 p hq env F arg st res hfr h

theorem countE_sd_send_cmd_acmd (p : Ev → Bool) (hq : QuietPred p)
    (env : SpiEnv) (F cmd arg : Nat) (st : Bus) (res : Nat × Bus)
    (hbit : cmd &&& 0x80 ≠ 0)
    (hfr55 : p (Ev.wr (cmdFrame 55 0)) = false)
    (hfr : p (Ev.wr (cmdFrame (cmd &&& 0x7f) arg)) = false)
    (h : sd_send_cmd env F cmd arg st = some res) :
    countE p res.2.log = countE p st.log := by
  simp only [sd_send_cmd] at h
  rw [if_pos hbit] at h
  split at h
  · exact Option.noConfusion h
  · rename_i r55 st55 heq
    have h55 := countE_sd_send_cmd_core p hq env F 55 0 st (r55, st55) hfr55 heq
    split at h
    · injection h with h2
      subst h2
      exact h55
    · rw [countE_sd_send_cmd_core p hq env F (cmd &&& 0x7f) arg st55 res hfr h]
      exact h55

theorem countE_sd_read_block_tok (p : Ev → Bool) (hq : QuietPred p)
    (env : SpiEnv) (tm : Nat) : ∀ (F : Nat) (st : Bus) (res : Nat × Bus),
    sd_read_block_tok env tm F st = some res →
    countE p res.2.log = countE p st.log := by
  intro F
  induction F with
  | zero => intro st res h; exact absurd h (by simp [sd_read_block_tok])
  | succ f ih =>
    intro st res h
    simp only [sd_read_block_tok] at h
    split at h
    · split at h
      · injection h with h2
        subst h2
        simp [timer_check, timer_get, spi_read1, countE_snoc, hq.rd]
      · rw [ih _ _ h]
        simp [timer_check, timer_get, spi_read1, countE_snoc, hq.rd]
    · injection h with h2
      subst h2
      simp [spi_read1, countE_snoc, hq.rd]

theorem countE_sd_read_block (p : Ev → Bool) (hq : QuietPred p)
    (env : SpiEnv) (F size : Nat) (st : Bus) (res : Int × List Nat × Bus)
    (h : sd_read_block env F size st = some res) :
    countE p res.2.2.log = countE p st.log := by
  simp only [sd_read_block] at h
  split at h
  · exact Option.noConfusion h
  · rename_i tok st2 heq
    have ht := countE_sd_read_block_tok p hq env _ F _ (tok, st2) heq
    simp [timer_set, timer_get] at ht
    split at h
    · injection h with h2
      subst h2
      exact ht
    · injection h with h2
      subst h2
      simp [spi_readN, countE_append, countE_cons, countE_nil, hq.rd, ht]

theorem countE_sd_write_block (p : Ev → Bool) (hq : QuietPred p)
    (env : SpiEnv) (F : Nat) (data : List Nat) (token : Nat) (st : Bus)
    (res : Int × Bus)
    (htok : p (Ev.wr [token]) = false)
    (hdata : p (Ev.wr data) = false)
    (h : sd_write_block env F data token st = some res) :
    countE p res.2.log = countE p st.log := by
  simp only [sd_write_block] at h
  split at h
  · exact Option.noConfusion h
  · rename_i rw1 st1 heq
    have hw := countE_sd_wait_ready p hq env F st rw1 st1 heq
    split at h
    · injection h with h2
      subst h2
      exact hw
    · split at h
      · split at h
        · injection h with h2
          subst h2
          simp [spi_read1, spi_write, countE_append, countE_cons, countE_nil,
                hq.rd, hq.ff2, htok, hdata, hw]
        · injection h with h2
          subst h2
          simp [spi_read1, spi_write, countE_append, countE_cons, countE_nil,
                hq.rd, hq.ff2, htok, hdata, hw]
      · injection h with h2
        subst h2
        simp [spi_write, countE_snoc, htok, hw]

theorem countE_sd_write_block_stop (p : Ev → Bool) (hq : QuietPred p)
    (env : SpiEnv) (F : Nat) (st : Bus) (res : Int × Bus)
    (h : sd_write_block env F [] 0xfd st = some res) :
    countE p res.2.log =
      countE p st.log +
        (if res.1 = 0 ∧ p (Ev.wr [253]) = true then 1 else 0) := by
  simp only [sd_write_block] at h
  split at h
  · exact Option.noConfusion h
  · rename_i rw1 st1 heq
    have hw := countE_sd_wait_ready p hq env F st rw1 st1 heq
    split at h
    · injection h with h2
      subst h2
      simp [hw, sdError_Timeout]
    · simp only [if_neg (by decide : ¬ ((0xfd : Nat) ≠ 0xfd))] at h
      injection h with h2
      subst h2
      simp [spi_write, countE_snoc, hw, sdError_OK]

theorem countE_ata_read_loop (p : Ev → Bool) (hq : QuietPred p)
    (env : SpiEnv) (F : Nat) : ∀ (f c : Nat) (st : Bus) (res : Int × Bus),
    ata_read_loop env F f c st = some res →
    countE p res.2.log = countE p st.log := by
  intro f
  induction f with
  | zero => intro c st res h; exact absurd h (by simp [ata_read_loop])
  | succ g ih =>
    intro c st res h
    simp only [ata_read_loop] at h
    split at h
    · exact Option.noConfusion h
    · rename_i e d st1 heq
      have hb := countE_sd_read_block p hq env F 512 st (e, d, st1) heq
      split at h
      · injection h with h2
        subst h2
        exact hb
      · split at h
        · have h2 : res = (e, st1) := (Option.some.inj h).symm
          rw [h2]
          exact hb
        · rw [ih _ _ _ h]
          exact hb

theorem countE_ata_write_loop (p : Ev → Bool) (hq : QuietPred p)
    (env : SpiEnv) (F : Nat) (bufW : Nat → Nat)
    (htok : p (Ev.wr [252]) = false)
    (hdata : ∀ l : List Nat, l.length = 512 → p (Ev.wr l) = false) :
    ∀ (f off c : Nat) (st : Bus) (res : Int × Bus),
    ata_write_loop env F bufW f off c st = some res →
    countE p res.2.log = countE p st.log := by
  intro f
  induction f with
  | zero => intro off c st res h; exact absurd h (by simp [ata_write_loop])
  | succ g ih =>
    intro off c st res h
    simp only [ata_write_loop] at h
    split at h
    · exact Option.noConfusion h
    · rename_i e st1 heq
      have hb := countE_sd_write_block p hq env F (sectorData bufW off) 0xfc
        st (e, st1) htok (hdata _ (sectorData_length bufW off)) heq
      split at h
      · injection h with h2
        subst h2
        exact hb
      · split at h
        · have h2 : res = (e, st1) := (Option.some.inj h).symm
          rw [h2]
          exact hb
        · rw [ih _ _ _ _ h]
          exact hb

theorem ata_read_single_count (p : Ev → Bool) (hq : QuietPred p)
    (hfr : ∀ arg, p (Ev.wr (cmdFrame 17 arg)) = false)
    (env : SpiEnv) (F lba : Nat) (ci : CardInfo) (st : Bus) (e : Int)
    (st2 : Bus) (hci : ci.type ≠ CardType.none)
    (hrun : ata_read env F lba 1 ci st = some (e, st2)) :
    countE p st2.log = countE p st.log := by
  simp only [ata_read, if_neg hci] at hrun
  split at hrun
  · split at hrun
    · exact Option.noConfusion hrun
    · rename_i r st1 heq
      have h17 := countE_sd_send_cmd_plain p hq env F 17 _ st (r, st1)
        (by decide) (hfr _) heq
      split at hrun
      · split at hrun
        · exact Option.noConfusion hrun
        · rename_i e1 d st2b heq2
          have hb := countE_sd_read_block p hq env F 512 st1 (e1, d, st2b)
            heq2
          injection hrun with h2
          cases h2
          rw [countE_sd_deselect p hq, hb, h17]
      · injection hrun with h2
        cases h2
        rw [countE_sd_deselect p hq, h17]
  · rename_i hbad
    exact absurd trivial hbad

theorem ata_write_single_count (p : Ev → Bool) (hq : QuietPred p)
    (hfr : ∀ arg, p (Ev.wr (cmdFrame 24 arg)) = false)
    (htokfe : p (Ev.wr [254]) = false)
    (hdata : ∀ l : List Nat, l.length = 512 → p (Ev.wr l) = false)
    (env : SpiEnv) (F : Nat) (bufW : Nat → Nat) (lba : Nat) (ci : CardInfo)
    (st : Bus) (e : Int) (st2 : Bus) (hci : ci.type ≠ CardType.none)
    (hrun : ata_write env F bufW lba 1 ci st = some (e, st2)) :
    countE p st2.log = countE p st.log := by
  simp only [ata_write, if_neg hci] at hrun
  split at hrun
  · split at hrun
    · exact Option.noConfusion hrun
    · rename_i r st1 heq
      have h24 := countE_sd_send_cmd_plain p hq env F 24 _ st (r, st1)
        (by decide) (hfr _) heq
      split at hrun
      · split at hrun
        · exact Option.noConfusion hrun
        · rename_i e1 st2b heq2
          have hb := countE_sd_write_block p hq env F (sectorData bufW 0) 254
            st1 (e1, st2b) htokfe (hdata _ (sectorData_length bufW 0)) heq2
          injection hrun with h2
          cases h2
          rw [countE_sd_deselect p hq, hb, h24]
      · injection hrun with h2
        cases h2
        rw [countE_sd_deselect p hq, h24]
  · rename_i hbad
    exact absurd trivial hbad

theorem ata_read_multi_success_count (p : Ev → Bool) (hq : QuietPred p)
    (hfr : ∀ arg, p (Ev.wr (cmdFrame 18 arg)) = false)
    (env : SpiEnv) (F lba count : Nat) (ci : CardInfo) (st st1 stL : Bus)
    (e : Int) (st2 : Bus) (hci : ci.type ≠ CardType.none) (hc : count ≠ 1)
    (h18 : sd_send_cmd env F 18
        (if ci.type ≠ CardType.sdhc then u32 (lba <<< 9) else lba) st =
      some (0, st1))
    (hloop : ata_read_loop env F F count st1 = some (0, stL))
    (hrun : ata_read env F lba count ci st = some (e, st2)) :
    countE p st2.log =
      countE p st.log +
        (if p (Ev.wr (cmdFrame 12 0)) = true then 1 else 0) := by
  have hcnt18 := countE_sd_send_cmd_plain p hq env F 18 _ st (0, st1)
    (by decide) (hfr _) h18
  have hcntL := countE_ata_read_loop p hq env F F count st1 (0, stL) hloop
  simp only [ata_read, if_neg hci, if_neg hc] at hrun
  split at hrun
  · exact Option.noConfusion hrun
  · rename_i r18 st18 heq18
    rw [h18] at heq18
    injection heq18 with hpair
    cases hpair
    rw [if_pos rfl] at hrun
    split at hrun
    · exact Option.noConfusion hrun
    · rename_i eL2 stL2 heqL
      rw [hloop] at heqL
      injection heqL with hpair2
      cases hpair2
      rw [if_pos rfl] at hrun
      split at hrun
      · exact Option.noConfusion hrun
      · rename_i r12 st12 heq12
        cases hb : p (Ev.wr (cmdFrame 12 0))
        · have h12 := countE_sd_send_cmd_plain p hq env F 12 0 stL (r12, st12)
            (by decide) hb heq12
          injection hrun with h2
          cases h2
          rw [countE_sd_deselect p hq, h12, hcntL, hcnt18]
          simp
        · have h12 := countE_sd_send_cmd_12 p hq env F 0 stL (r12, st12) hb
            heq12
          injection hrun with h2
          cases h2
          rw [countE_sd_deselect p hq, h12, hcntL, hcnt18]
          simp

theorem ata_read_multi_fail_count (p : Ev → Bool) (hq : QuietPred p)
    (hfr : ∀ arg, p (Ev.wr (cmdFrame 18 arg)) = false)
    (env : SpiEnv) (F lba count : Nat) (ci : CardInfo) (st st1 stL : Bus)
    (eL e : Int) (st2 : Bus) (hci : ci.type ≠ CardType.none) (hc : count ≠ 1)
    (h18 : sd_send_cmd env F 18
        (if ci.type ≠ CardType.sdhc then u32 (lba <<< 9) else lba) st =
      some (0, st1))
    (hloop : ata_read_loop env F F count st1 = some (eL, stL)) (heL : eL ≠ 0)
    (hrun : ata_read env F lba count ci st = some (e, st2)) :
    countE p st2.log = countE p st.log := by
  have hcnt18 := countE_sd_send_cmd_plain p hq env F 18 _ st (0, st1)
    (by decide) (hfr _) h18
  have hcntL := countE_ata_read_loop p hq env F F count st1 (eL, stL) hloop
  simp only [ata_read, if_neg hci, if_neg hc] at hrun
  split at hrun
  · exact Option.noConfusion hrun
  · rename_i r18 st18 heq18
    rw [h18] at heq18
    injection heq18 with hpair
    cases hpair
    rw [if_pos rfl] at hrun
    split at hrun
    · exact Option.noConfusion hrun
    · rename_i eL2 stL2 heqL
      rw [hloop] at heqL
      injection heqL with hpair2
      cases hpair2
      rw [if_neg heL] at hrun
      injection hrun with h2
      cases h2
      rw [countE_sd_deselect p hq, hcntL, hcnt18]

theorem ata_write_multi_pre_count (p : Ev → Bool) (hq : QuietPred p)
    (hfr55 : p (Ev.wr (cmdFrame 55 0)) = false)
    (hfr23 : ∀ arg, p (Ev.wr (cmdFrame 23 arg)) = false)
    (env : SpiEnv) (F count : Nat) (ci : CardInfo) (st : Bus) (rA : Nat)
    (stA : Bus)
    (hA : (if ci.type = CardType.sd1x ∨ ci.type = CardType.sd20 ∨
             ci.type = CardType.sdhc then
             sd_send_cmd env F 151 count st
           else some (0, st)) = some (rA, stA)) :
    countE p stA.log = countE p st.log := by
  split at hA
  · exact countE_sd_send_cmd_acmd p hq env F 151 count st (rA, stA)
      (by decide) hfr55 (hfr23 count) hA
  · injection hA with h2
    cases h2
    rfl

theorem ata_write_multi_success_count (p : Ev → Bool) (hq : QuietPred p)
    (hfr55 : p (Ev.wr (cmdFrame 55 0)) = false)
    (hfr23 : ∀ arg, p (Ev.wr (cmdFrame 23 arg)) = false)
    (hfr25 : ∀ arg, p (Ev.wr (cmdFrame 25 arg)) = false)
    (htokfc : p (Ev.wr [252]) = false)
    (hdata : ∀ l : List Nat, l.length = 512 → p (Ev.wr l) = false)
    (env : SpiEnv) (F : Nat) (bufW : Nat → Nat) (lba count : Nat)
    (ci : CardInfo) (st : Bus) (rA : Nat) (stA st1 stL : Bus) (es : Int)
    (stS : Bus) (e : Int) (st2 : Bus)
    (hci : ci.type ≠ CardType.none) (hc : count ≠ 1)
    (hA : (if ci.type = CardType.sd1x ∨ ci.type = CardType.sd20 ∨
             ci.type = CardType.sdhc then
             sd_send_cmd env F 151 count st
           else some (0, st)) = some (rA, stA))
    (h25 : sd_send_cmd env F 25
        (if ci.type ≠ CardType.sdhc then u32 (lba <<< 9) else lba) stA =
      some (0, st1))
    (hloop : ata_write_loop env F bufW F 0 count st1 = some (0, stL))
    (hstop : sd_write_block env F [] 0xfd stL = some (es, stS))
    (hrun : ata_write env F bufW lba count ci st = some (e, st2)) :
    countE p st2.log =
      countE p st.log +
        (if es = 0 ∧ p (Ev.wr [253]) = true then 1 else 0) := by
  have hcA := ata_write_multi_pre_count p hq hfr55 hfr23 env F count ci st
    rA stA hA
  have hc25 := countE_sd_send_cmd_plain p hq env F 25 _ stA (0, st1)
    (by decide) (hfr25 _) h25
  have hcL := countE_ata_write_loop p hq env F bufW htokfc hdata F 0 count
    st1 (0, stL) hloop
  have hcS := countE_sd_write_block_stop p hq env F stL (es, stS) hstop
  simp only [ata_write, if_neg hci, if_neg hc] at hrun
  split at hrun
  · exact Option.noConfusion hrun
  · rename_i rA2 stA2 heqA
    rw [hA] at heqA
    injection heqA with hpair
    cases hpair
    split at hrun
    · exact Option.noConfusion hrun
    · rename_i r25 st25 heq25
      rw [h25] at heq25
      injection heq25 with hpair2
      cases hpair2
      rw [if_pos rfl] at hrun
      split at hrun
      · exact Option.noConfusion hrun
      · rename_i eL2 stL2 heqL
        rw [hloop] at heqL
        injection heqL with hpair3
        cases hpair3
        rw [if_pos rfl] at hrun
        split at hrun
        · exact Option.noConfusion hrun
        · rename_i es2 stS2 heqS
          rw [hstop] at heqS
          injection heqS with hpair4
          cases hpair4
          injection hrun with h2
          cases h2
          rw [countE_sd_deselect p hq, hcS, hcL, hc25, hcA]

theorem ata_write_multi_fail_count (p : Ev → Bool) (hq : QuietPred p)
    (hfr55 : p (Ev.wr (cmdFrame 55 0)) = false)
    (hfr23 : ∀ arg, p (Ev.wr (cmdFrame 23 arg)) = false)
    (hfr25 : ∀ arg, p (Ev.wr (cmdFrame 25 arg)) = false)
    (htokfc : p (Ev.wr [252]) = false)
    (hdata : ∀ l : List Nat, l.length = 512 → p (Ev.wr l) = false)
    (env : SpiEnv) (F : Nat) (bufW : Nat → Nat) (lba count : Nat)
    (ci : CardInfo) (st : Bus) (rA : Nat) (stA st1 stL : Bus) (eL : Int)
    (e : Int) (st2 : Bus)
    (hci : ci.type ≠ CardType.none) (hc : count ≠ 1)
    (hA : (if ci.type = CardType.sd1x ∨ ci.type = CardType.sd20 ∨
             ci.type = CardType.sdhc then
             sd_send_cmd env F 151 count st
           else some (0, st)) = some (rA, stA))
    (h25 : sd_send_cmd env F 25
        (if ci.type ≠ CardType.sdhc then u32 (lba <<< 9) else lba) stA =
      some (0, st1))
    (hloop : ata_write_loop env F bufW F 0 count st1 = some (eL, stL))
    (heL : eL ≠ 0)
    (hrun : ata_write env F bufW lba count ci st = some (e, st2)) :
    countE p st2.log = countE p st.log := by
  have hcA := ata_write_multi_pre_count p hq hfr55 hfr23 env F count ci st
    rA stA hA
  have hc25 := countE_sd_send_cmd_plain p hq env F 25 _ stA (0, st1)
    (by decide) (hfr25 _) h25
  have hcL := countE_ata_write_loop p hq env F bufW htokfc hdata F 0 count
    st1 (eL, stL) hloop
  simp only [ata_write, if_neg hci, if_neg hc] at hrun
  split at hrun
  · exact Option.noConfusion hrun
  · rename_i rA2 stA2 heqA
    rw [hA] at heqA
    injection heqA with hpair
    cases hpair
    split at hrun
    · exact Option.noConfusion hrun
    · rename_i r25 st25 heq25
      rw [h25] at heq25
      injection heq25 with hpair2
      cases hpair2
      rw [if_pos rfl] at hrun
      split at hrun
      · exact Option.noConfusion hrun
      · rename_i eL2 stL2 heqL
        rw [hloop] at heqL
        injection heqL with hpair3
        cases hpair3
        rw [if_neg heL] at hrun
        injection hrun with h2
        cases h2
        rw [countE_sd_deselect p hq, hcL, hc25, hcA]

theorem isStopTokE_253 : isStopTokE (Ev.wr [253]) = true := by decide

theorem isStopCmdE_253 : isStopCmdE (Ev.wr [253]) = false := by decide

/-- C6 (amended): stop discipline of the transfer paths.  With count 1
neither entry point ever emits the CMD12 stop-transmission frame or the
0xfd stop token.  With count other than 1 on a card-present unit: a read
whose CMD18 was accepted and whose per-sector loop succeeded emits
exactly one CMD12 frame and no stop token; a read whose first sector
transfer fails emits neither; a write whose CMD25 was accepted and whose
per-sector loop succeeded attempts the stop write and emits exactly one
0xfd stop token when the pre-stop ready wait succeeds and none when it
times out (es is the stop-write result: 0 on success, negative on
timeout); a write whose first sector transfer fails emits neither.  (The
original claim asserts the stop token is always sent when every
per-sector write succeeds; the ready-wait timeout case refutes that.) -/
theorem ata_rw_stop_discipline :
    (∀ env F lba ci st e st2, ci.type ≠ CardType.none →
       ata_read env F lba 1 ci st = some (e, st2) →
       countE isStopCmdE st2.log = countE isStopCmdE st.log ∧
       countE isStopTokE st2.log = countE isStopTokE st.log) ∧
    (∀ env F bufW lba ci st e st2, ci.type ≠ CardType.none →
       ata_write env F bufW lba 1 ci st = some (e, st2) →
       countE isStopCmdE st2.log = countE isStopCmdE st.log ∧
       countE isStopTokE st2.log = countE isStopTokE st.log) ∧
    (∀ env F lba count ci st st1 stL e st2, ci.type ≠ CardType.none →
       count ≠ 1 →
       sd_send_cmd env F 18
           (if ci.type ≠ CardType.sdhc then u32 (lba <<< 9) else lba) st =
         some (0, st1) →
       ata_read_loop env F F count st1 = some (0, stL) →
       ata_read env F lba count ci st = some (e, st2) →
       countE isStopCmdE st2.log = countE isStopCmdE st.log + 1 ∧
       countE isStopTokE st2.log = countE isStopTokE st.log) ∧
    (∀ env F lba count ci st st1 e1 d stB e st2 f, ci.type ≠ CardType.none →
       count ≠ 1 → F = f + 1 →
       sd_send_cmd env F 18
           (if ci.type ≠ CardType.sdhc then u32 (lba <<< 9) else lba) st =
         some (0, st1) →
       sd_read_block env F 512 st1 = some (e1, d, stB) → e1 < 0 →
       ata_read env F lba count ci st = some (e, st2) →
       countE isStopCmdE st2.log = countE isStopCmdE st.log ∧
       countE isStopTokE st2.log = countE isStopTokE st.log) ∧
    (∀ env F bufW lba count ci st rA stA st1 stL es stS e st2,
       ci.type ≠ CardType.none → count ≠ 1 →
       (if ci.type = CardType.sd1x ∨ ci.type = CardType.sd20 ∨
          ci.type = CardType.sdhc then
          sd_send_cmd env F 151 count st
        else some (0, st)) = some (rA, stA) →
       sd_send_cmd env F 25
           (if ci.type ≠ CardType.sdhc then u32 (lba <<< 9) else lba) stA =
         some (0, st1) →
       ata_write_loop env F bufW F 0 count st1 = some (0, stL) →
       sd_write_block env F [] 0xfd stL = some (es, stS) →
       ata_write env F bufW lba count ci st = some (e, st2) →
       countE isStopTokE st2.log =
         countE isStopTokE st.log + (if es = 0 then 1 else 0) ∧
       countE isStopCmdE st2.log = countE isStopCmdE st.log) ∧
    (∀ env F bufW lba count ci st rA stA st1 e1 stB e st2 f,
       ci.type ≠ CardType.none → count ≠ 1 → F = f + 1 →
       (if ci.type = CardType.sd1x ∨ ci.type = CardType.sd20 ∨
          ci.type = CardType.sdhc then
          sd_send_cmd env F 151 count st
        else some (0, st)) = some (rA, stA) →
       sd_send_cmd env F 25
           (if ci.type ≠ CardType.sdhc then u32 (lba <<< 9) else lba) stA =
         some (0, st1) →
       sd_write_block env F (sectorData bufW 0) 0xfc st1 = some (e1, stB) →
       e1 < 0 →
       ata_write env F bufW lba count ci st = some (e, st2) →
       countE isStopCmdE st2.log = countE isStopCmdE st.log ∧
       countE isStopTokE st2.log = countE isStopTokE st.log) := by
  refine ⟨?_, ?_, ?_, ?_, ?_, ?_⟩
  · intro env F lba ci st e st2 hci hrun
    exact ⟨ata_read_single_count isStopCmdE quiet_isStopCmdE
             (fun arg => isStopCmdE_frame 17 arg (by decide)) env F lba ci st
             e st2 hci hrun,
           ata_read_single_count isStopTokE quiet_isStopTokE
             (fun arg => isStopTokE_frame 17 arg) env F lba ci st e st2 hci
             hrun⟩
  · intro env F bufW lba ci st e st2 hci hrun
    exact ⟨ata_write_single_count isStopCmdE quiet_isStopCmdE
             (fun arg => isStopCmdE_frame 24 arg (by decide)) (by decide)
             (fun l hl => isStopCmdE_wr_of_len l (by omega)) env F bufW lba
             ci st e st2 hci hrun,
           ata_write_single_count isStopTokE quiet_isStopTokE
             (fun arg => isStopTokE_frame 24 arg) (by decide)
             (fun l hl => isStopTokE_wr_of_len l (by omega)) env F bufW lba
             ci st e st2 hci hrun⟩
  · intro env F lba count ci st st1 stL e st2 hci hc h18 hloop hrun
    constructor
    · have h := ata_read_multi_success_count isStopCmdE quiet_isStopCmdE
        (fun arg => isStopCmdE_frame 18 arg (by decide)) env F lba count ci
        st st1 stL e st2 hci hc h18 hloop hrun
      simpa [isStopCmdE_frame12] using h
    · have h := ata_read_multi_success_count isStopTokE quiet_isStopTokE
        (fun arg => isStopTokE_frame 18 arg) env F lba count ci st st1 stL
        e st2 hci hc h18 hloop hrun
      simpa [isStopTokE_frame] using h
  · intro env F lba count ci st st1 e1 d stB e st2 f hci hc hF h18 hfail he1
      hrun
    subst hF
    have hloop : ata_read_loop env (f + 1) (f + 1) count st1 =
        some (e1, stB) := by
      simp only [ata_read_loop, hfail]
      rw [if_pos he1]
    have heL : e1 ≠ 0 := by omega
    exact ⟨ata_read_multi_fail_count isStopCmdE quiet_isStopCmdE
             (fun arg => isStopCmdE_frame 18 arg (by decide)) env (f + 1)
             lba count ci st st1 stB e1 e st2 hci hc h18 hloop heL hrun,
           ata_read_multi_fail_count isStopTokE quiet_isStopTokE
             (fun arg => isStopTokE_frame 18 arg) env (f + 1) lba count ci
             st st1 stB e1 e st2 hci hc h18 hloop heL hrun⟩
  · intro env F bufW lba count ci st rA stA st1 stL es stS e st2 hci hc hA
      h25 hloop hstop hrun
    constructor
    · have h := ata_write_multi_success_count isStopTokE quiet_isStopTokE
        (isStopTokE_frame 55 0) (fun arg => isStopTokE_frame 23 arg)
        (fun arg => isStopTokE_frame 25 arg) (by decide)
        (fun l hl => isStopTokE_wr_of_len l (by omega)) env F bufW lba count
        ci st rA stA st1 stL es stS e st2 hci hc hA h25 hloop hstop hrun
      simpa [isStopTokE_253] using h
    · have h := ata_write_multi_success_count isStopCmdE quiet_isStopCmdE
        (isStopCmdE_frame 55 0 (by decide))
        (fun arg => isStopCmdE_frame 23 arg (by decide))
        (fun arg => isStopCmdE_frame 25 arg (by decide)) (by decide)
        (fun l hl => isStopCmdE_wr_of_len l (by omega)) env F bufW lba count
        ci st rA stA st1 stL es stS e st2 hci hc hA h25 hloop hstop hrun
      simpa [isStopCmdE_253] using h
  · intro env F bufW lba count ci st rA stA st1 e1 stB e st2 f hci hc hF hA
      h25 hfail he1 hrun
    subst hF
    have hloop : ata_write_loop env (f + 1) bufW (f + 1) 0 count st1 =
        some (e1, stB) := by
      simp only [ata_write_loop, hfail]
      rw [if_pos he1]
    have heL : e1 ≠ 0 := by omega
    exact ⟨ata_write_multi_fail_count isStopCmdE quiet_isStopCmdE
             (isStopCmdE_frame 55 0 (by decide))
             (fun arg => isStopCmdE_frame 23 arg (by decide))
             (fun arg => isStopCmdE_frame 25 arg (by decide)) (by decide)
             (fun l hl => isStopCmdE_wr_of_len l (by omega)) env (f + 1)
             bufW lba count ci st rA stA st1 stB e1 e st2 hci hc hA h25
             hloop heL hrun,
           ata_write_multi_fail_count isStopTokE quiet_isStopTokE
             (isStopTokE_frame 55 0) (fun arg => isStopTokE_frame 23 arg)
             (fun arg => isStopTokE_frame 25 arg) (by decide)
             (fun l hl => isStopTokE_wr_of_len l (by omega)) env (f + 1)
             bufW lba count ci st rA stA st1 stB e1 e st2 hci hc hA h25
             hloop heL hrun⟩

/-- An MMC card-info record, for concrete multi-sector transfer runs. -/
def ciMMC6 : CardInfo := { type := CardType.mmc }

/-- Environment of a write run in which CMD25 is accepted, both sector
writes are accepted, but every byte read after the data responses is 0x00,
so the ready wait before the stop token times out. -/
def envC6wTrace : SpiEnv :=
  envOfList [0xff, 0x00, 0xff, 0x05, 0xff, 0x05, 0x00, 0x00]

/-- The bus state after the accepted CMD25 of the envC6wTrace run. -/
def c6st1 : Bus :=
  ((sd_send_cmd envC6wTrace 12 25 0 { }).getD (0, { })).2

set_option maxRecDepth 8000 in
/-- C6, counterexample: on envC6wTrace the CMD25 is accepted and the
per-sector loop succeeds (both 512-byte sector writes are accepted, result
0), yet the call returns IOERR_ABORTED and writes no 0xfd stop token at
all: sd_write_block for the stop token first waits for ready, the wait
times out, and the token write is skipped.  The claim promises exactly one
stop token whenever every per-sector write succeeds. -/
theorem ata_write_stop_skipped_on_busy :
    (sd_send_cmd envC6wTrace 12 25 0 { }).map Prod.fst = some 0 ∧
    (ata_write_loop envC6wTrace 12 (fun _ => 0) 12 0 2 c6st1).map Prod.fst =
      some 0 ∧
    (ata_write envC6wTrace 12 (fun _ => 0) 0 2 ciMMC6 { }).map Prod.fst =
      some IOERR_ABORTED ∧
    (ata_write envC6wTrace 12 (fun _ => 0) 0 2 ciMMC6 { }).map
        (fun r => countE isDataWrE r.2.log) = some 2 ∧
    (ata_write envC6wTrace 12 (fun _ => 0) 0 2 ciMMC6 { }).map
        (fun r => countE isStopTokE r.2.log) = some 0 := by
  refine ⟨by decide, by decide, by decide, by decide, by decide⟩

/-- Environment of a fully successful two-sector write run: CMD25
accepted, both data blocks accepted, and all later reads are 0xff so
every ready wait succeeds and the stop token is written. -/
def envC6ok : SpiEnv :=
  envOfList [0xff, 0x00, 0xff, 0x05, 0xff, 0x05, 0xff]

/-- The bus state after the accepted CMD25 of the envC6ok run. -/
def w6st1 : Bus :=
  ((sd_send_cmd envC6ok 12 25 0 { }).getD (0, { })).2

/-- The bus state after the per-sector loop of the envC6ok run. -/
def w6stL : Bus :=
  ((ata_write_loop envC6ok 12 (fun _ => 0) 12 0 2 w6st1).getD (0, { })).2

/-- The bus state after the stop-token write of the envC6ok run. -/
def w6stS : Bus :=
  ((sd_write_block envC6ok 12 [] 0xfd w6stL).getD (0, { })).2

/-- The final bus state of the envC6ok write run. -/
def w6st2 : Bus :=
  ((ata_write envC6ok 12 (fun _ => 0) 0 2 ciMMC6 { }).getD (0, { })).2

/-- The final bus state of a single-sector read on a dead bus. -/
def w6rSt : Bus :=
  ((ata_read envZeroTrace 5 0 1 ciMMC6 { }).getD (0, { })).2

theorem ata_rw_stop_discipline_witness :
    (countE isStopCmdE w6rSt.log = countE isStopCmdE ({ } : Bus).log ∧
     countE isStopTokE w6rSt.log = countE isStopTokE ({ } : Bus).log) ∧
    (countE isStopTokE w6st2.log =
       countE isStopTokE ({ } : Bus).log + (if (0 : Int) = 0 then 1 else 0) ∧
     countE isStopCmdE w6st2.log = countE isStopCmdE ({ } : Bus).log) := by
  constructor
  · exact ata_rw_stop_discipline.1 envZeroTrace 5 0 ciMMC6 { } IOERR_ABORTED
      w6rSt (by decide) (by decide)
  · exact ata_rw_stop_discipline.2.2.2.2.1 envC6ok 12 (fun _ => 0) 0 2
      ciMMC6 { } 0 { } w6st1 w6stL 0 w6stS 0 w6st2 (by decide) (by decide)
      (by decide) (by decide) (by decide) (by decide) (by decide)

/-- On a bus whose every byte from position n0 on reads 0xfe, a 512-byte
block read succeeds at once: the data-start token arrives on the first
poll, and the run appends exactly one rd 1, one rd 512 and one rd 2. -/
theorem sd_read_block_fe (env : SpiEnv) (n0 : Nat)
    (hEnv : ∀ k, n0 ≤ k → env.byte k % 256 = 254)
    (f : Nat) (st : Bus) (hidx : n0 ≤ st.idx) :
    sd_read_block env (f + 1) 512 st =
      some (sdError_OK,
            (List.range 512).map (fun k => u8 (env.byte (st.idx + 1 + k))),
            { st with tcnt := st.tcnt + 1, idx := st.idx + 515,
                      log := st.log ++ [Ev.rd 1, Ev.rd 512, Ev.rd 2] }) := by
  have h254 : u8 (env.byte st.idx) = 254 := hEnv st.idx hidx
  simp [sd_read_block, sd_read_block_tok, timer_set, timer_get, spi_read1,
        spi_readN, h254]

/-- Per-sector read loop on the all-0xfe bus: with counter c in [1, 2^32]
and fuel at least c, the loop performs exactly c sector reads and returns
success. -/
theorem ata_read_loop_fe (env : SpiEnv) (n0 F : Nat)
    (hEnv : ∀ k, n0 ≤ k → env.byte k % 256 = 254) (hF : 1 ≤ F) :
    ∀ c, 1 ≤ c → c ≤ 4294967296 →
    ∀ f st, c ≤ f → n0 ≤ st.idx →
    ∃ st2, ata_read_loop env F f c st = some (0, st2) ∧
      countE isDataRdE st2.log = countE isDataRdE st.log + c ∧
      n0 ≤ st2.idx := by
  intro c
  induction c with
  | zero => intro h1; exact absurd h1 (by omega)
  | succ m ih =>
    intro h1 h2 f st hf hidx
    obtain ⟨f', rfl⟩ : ∃ f', f = f' + 1 := ⟨f - 1, by omega⟩
    have hblk := sd_read_block_fe env n0 hEnv (F - 1) st hidx
    rw [show F - 1 + 1 = F by omega] at hblk
    have hc1 : countE isDataRdE
        (st.log ++ [Ev.rd 1, Ev.rd 512, Ev.rd 2]) =
        countE isDataRdE st.log + 1 := by
      simp [countE_append, countE_cons, countE_nil, isDataRdE]
    by_cases hm : m = 0
    · subst hm
      refine ⟨{ st with tcnt := st.tcnt + 1, idx := st.idx + 515,
                        log := st.log ++ [Ev.rd 1, Ev.rd 512, Ev.rd 2] },
              ?_, ?_, ?_⟩
      · simp only [ata_read_loop, hblk]
        rw [if_neg (show ¬ ((sdError_OK : Int) < 0) by decide),
            if_pos (show dec32 1 = 0 by decide)]
        rfl
      · show countE isDataRdE (st.log ++ [Ev.rd 1, Ev.rd 512, Ev.rd 2]) = _
        omega
      · show n0 ≤ st.idx + 515
        omega
    · have hd : dec32 (m + 1) = m := by
        simp only [dec32]
        omega
      obtain ⟨st2, hrec, hcount, hidx2⟩ := ih (by omega) (by omega) f'
        { st with tcnt := st.tcnt + 1, idx := st.idx + 515,
                  log := st.log ++ [Ev.rd 1, Ev.rd 512, Ev.rd 2] }
        (by omega) (by show n0 ≤ st.idx + 515; omega)
      refine ⟨st2, ?_, ?_, hidx2⟩
      · simp only [ata_read_loop, hblk]
        rw [if_neg (show ¬ ((sdError_OK : Int) < 0) by decide), hd,
            if_neg hm]
        exact hrec
      · rw [hcount]
        show countE isDataRdE (st.log ++ [Ev.rd 1, Ev.rd 512, Ev.rd 2]) + m = _
        omega

/-- On a bus that alternates ready 0xff and data-response 0x05 bytes from
position n0 on, a multi-block sector write succeeds at once: the ready
wait ends on the first poll and the data response accepts the block, and
the run appends the ready read, the 0xfc token write, the payload write,
the dummy CRC write and the response read. -/
theorem sd_write_block_fe (env : SpiEnv) (n0 : Nat)
    (hEnv : ∀ k, n0 ≤ k →
       env.byte k % 256 = if (k - n0) % 2 = 0 then 255 else 5)
    (f : Nat) (data : List Nat) (st : Bus) (hidx : n0 ≤ st.idx)
    (hp : (st.idx - n0) % 2 = 0) :
    sd_write_block env (f + 1) data 0xfc st =
      some (sdError_OK,
            { st with tcnt := st.tcnt + 1, idx := st.idx + 2,
                      log := st.log ++ [Ev.rd 1, Ev.wr [252], Ev.wr data,
                                        Ev.wr [255, 255], Ev.rd 1] }) := by
  have h255 : u8 (env.byte st.idx) = 255 := by
    have h := hEnv st.idx hidx
    rw [if_pos hp] at h
    exact h
  have h5 : u8 (env.byte (st.idx + 1)) = 5 := by
    have h := hEnv (st.idx + 1) (by omega)
    rw [if_neg (by omega)] at h
    exact h
  simp [sd_write_block, sd_wait_ready, sd_wait_ready_loop, timer_set,
        timer_get, spi_read1, spi_write, h255, h5]
  rw [if_neg (show ¬ ((sdError_OK : Int) < 0) by decide),
      if_pos (show (5 &&& 31 : Nat) = 5 by decide)]

/-- Per-sector write loop on the alternating ready/accept bus: with
counter c in [1, 2^32] and fuel at least c, the loop performs exactly c
sector writes and returns success. -/
theorem ata_write_loop_fe (env : SpiEnv) (n0 F : Nat) (bufW : Nat → Nat)
    (hEnv : ∀ k, n0 ≤ k →
       env.byte k % 256 = if (k - n0) % 2 = 0 then 255 else 5)
    (hF : 1 ≤ F) :
    ∀ c, 1 ≤ c → c ≤ 4294967296 →
    ∀ f off st, c ≤ f → n0 ≤ st.idx → (st.idx - n0) % 2 = 0 →
    ∃ st2, ata_write_loop env F bufW f off c st = some (0, st2) ∧
      countE isDataWrE st2.log = countE isDataWrE st.log + c ∧
      n0 ≤ st2.idx := by
  intro c
  induction c with
  | zero => intro h1; exact absurd h1 (by omega)
  | succ m ih =>
    intro h1 h2 f off st hf hidx hp
    obtain ⟨f', rfl⟩ : ∃ f', f = f' + 1 := ⟨f - 1, by omega⟩
    have hblk := sd_write_block_fe env n0 hEnv (F - 1) (sectorData bufW off)
      st hidx hp
    rw [show F - 1 + 1 = F by omega] at hblk
    have hc1 : countE isDataWrE
        (st.log ++ [Ev.rd 1, Ev.wr [252], Ev.wr (sectorData bufW off),
                    Ev.wr [255, 255], Ev.rd 1]) =
        countE isDataWrE st.log + 1 := by
      simp [countE_append, countE_cons, countE_nil, isDataWrE,
            sectorData_length]
    by_cases hm : m = 0
    · subst hm
      refine ⟨{ st with tcnt := st.tcnt + 1, idx := st.idx + 2,
                        log := st.log ++ [Ev.rd 1, Ev.wr [252],
                                          Ev.wr (sectorData bufW off),
                                          Ev.wr [255, 255], Ev.rd 1] },
              ?_, ?_, ?_⟩
      · simp only [ata_write_loop, hblk]
        rw [if_neg (show ¬ ((sdError_OK : Int) < 0) by decide),
            if_pos (show dec32 1 = 0 by decide)]
        rfl
      · show countE isDataWrE
            (st.log ++ [Ev.rd 1, Ev.wr [252], Ev.wr (sectorData bufW off),
                        Ev.wr [255, 255], Ev.rd 1]) = _
        omega
      · show n0 ≤ st.idx + 2
        omega
    · have hd : dec32 (m + 1) = m := by
        simp only [dec32]
        omega
      obtain ⟨st2, hrec, hcount, hidx2⟩ := ih (by omega) (by omega) f'
        (off + 512)
        { st with tcnt := st.tcnt + 1, idx := st.idx + 2,
                  log := st.log ++ [Ev.rd 1, Ev.wr [252],
                                    Ev.wr (sectorData bufW off),
                                    Ev.wr [255, 255], Ev.rd 1] }
        (by omega) (by show n0 ≤ st.idx + 2; omega)
        (by show (st.idx + 2 - n0) % 2 = 0; omega)
      refine ⟨st2, ?_, ?_, hidx2⟩
      · simp only [ata_write_loop, hblk]
        rw [if_neg (show ¬ ((sdError_OK : Int) < 0) by decide), hd,
            if_neg hm]
        exact hrec
      · rw [hcount]
        show countE isDataWrE
            (st.log ++ [Ev.rd 1, Ev.wr [252], Ev.wr (sectorData bufW off),
                        Ev.wr [255, 255], Ev.rd 1]) + m = _
        omega

/-- C10: a read or write with count = 0 on a card-present unit takes the
multi-block path and the do-while counter, decremented modulo 2^32,
underflows: once the opening CMD18/CMD25 is accepted, and on a bus whose
responses keep every sector transfer succeeding, the per-sector loop runs
exactly 2^32 sector transfers (2^32 rd-512 events for read, 2^32 payload
writes for write) before reaching the stop step, instead of transferring
nothing or rejecting the count. -/
theorem ata_rw_count_zero_underflow :
    (∀ env F lba ci st st1,
       ci.type ≠ CardType.none →
       (∀ k, st1.idx ≤ k → env.byte k % 256 = 254) →
       4294967296 ≤ F →
       sd_send_cmd env F 18
           (if ci.type ≠ CardType.sdhc then u32 (lba <<< 9) else lba) st =
         some (0, st1) →
       ∃ stL, ata_read_loop env F F 0 st1 = some (0, stL) ∧
         countE isDataRdE stL.log = countE isDataRdE st1.log + 4294967296 ∧
         ata_read env F lba 0 ci st =
           (match sd_send_cmd env F 12 0 stL with
            | none => none
            | some (r12, st3) =>
              some (if (r12 : Int) ≠ 0 then IOERR_ABORTED else 0,
                    sd_deselect st3))) ∧
    (∀ env F bufW lba ci st rA stA st1,
       ci.type ≠ CardType.none →
       (∀ k, st1.idx ≤ k →
          env.byte k % 256 = if (k - st1.idx) % 2 = 0 then 255 else 5) →
       4294967296 ≤ F →
       (if ci.type = CardType.sd1x ∨ ci.type = CardType.sd20 ∨
          ci.type = CardType.sdhc then
          sd_send_cmd env F 151 0 st
        else some (0, st)) = some (rA, stA) →
       sd_send_cmd env F 25
           (if ci.type ≠ CardType.sdhc then u32 (lba <<< 9) else lba) stA =
         some (0, st1) →
       ∃ stL, ata_write_loop env F bufW F 0 0 st1 = some (0, stL) ∧
         countE isDataWrE stL.log = countE isDataWrE st1.log + 4294967296 ∧
         ata_write env F bufW lba 0 ci st =
           (match sd_write_block env F [] 0xfd stL with
            | none => none
            | some (es, st3) =>
              some (if es ≠ 0 then IOERR_ABORTED else 0,
                    sd_deselect st3))) := by
  constructor
  · intro env F lba ci st st1 hci hEnv hF h18
    obtain ⟨F', rfl⟩ : ∃ F', F = F' + 1 := ⟨F - 1, by omega⟩
    have hblk := sd_read_block_fe env st1.idx hEnv F' st1 (Nat.le_refl _)
    obtain ⟨stL, hrec, hcount, hidx2⟩ := ata_read_loop_fe env st1.idx
      (F' + 1) hEnv (by omega) 4294967295 (by omega) (by omega) F'
      { st1 with tcnt := st1.tcnt + 1, idx := st1.idx + 515,
                 log := st1.log ++ [Ev.rd 1, Ev.rd 512, Ev.rd 2] }
      (by omega) (by show st1.idx ≤ st1.idx + 515; omega)
    have hloop : ata_read_loop env (F' + 1) (F' + 1) 0 st1 =
        some (0, stL) := by
      simp only [ata_read_loop, hblk]
      rw [if_neg (show ¬ ((sdError_OK : Int) < 0) by decide),
          show dec32 0 = 4294967295 by decide,
          if_neg (show ¬ ((4294967295 : Nat) = 0) by decide)]
      exact hrec
    refine ⟨stL, hloop, ?_, ?_⟩
    · rw [hcount]
      have hc1 : countE isDataRdE
          (st1.log ++ [Ev.rd 1, Ev.rd 512, Ev.rd 2]) =
          countE isDataRdE st1.log + 1 := by
        simp [countE_append, countE_cons, countE_nil, isDataRdE]
      show countE isDataRdE
          (st1.log ++ [Ev.rd 1, Ev.rd 512, Ev.rd 2]) + 4294967295 = _
      omega
    · simp only [ata_read, if_neg hci, h18, hloop]
      simp
  · intro env F bufW lba ci st rA stA st1 hci hEnv hF hA h25
    obtain ⟨F', rfl⟩ : ∃ F', F = F' + 1 := ⟨F - 1, by omega⟩
    have hblk := sd_write_block_fe env st1.idx hEnv F'
      (sectorData bufW 0) st1 (Nat.le_refl _) (by omega)
    obtain ⟨stL, hrec, hcount, hidx2⟩ := ata_write_loop_fe env st1.idx
      (F' + 1) bufW hEnv (by omega) 4294967295 (by omega) (by omega) F' 512
      { st1 with tcnt := st1.tcnt + 1, idx := st1.idx + 2,
                 log := st1.log ++ [Ev.rd 1, Ev.wr [252],
                                    Ev.wr (sectorData bufW 0),
                                    Ev.wr [255, 255], Ev.rd 1] }
      (by omega) (by show st1.idx ≤ st1.idx + 2; omega)
      (by show (st1.idx + 2 - st1.idx) % 2 = 0; omega)
    have hloop : ata_write_loop env (F' + 1) bufW (F' + 1) 0 0 st1 =
        some (0, stL) := by
      simp only [ata_write_loop, hblk]
      rw [if_neg (show ¬ ((sdError_OK : Int) < 0) by decide),
          show dec32 0 = 4294967295 by decide,
          if_neg (show ¬ ((4294967295 : Nat) = 0) by decide)]
      exact hrec
    refine ⟨stL, hloop, ?_, ?_⟩
    · rw [hcount]
      have hc1 : countE isDataWrE
          (st1.log ++ [Ev.rd 1, Ev.wr [252], Ev.wr (sectorData bufW 0),
                       Ev.wr [255, 255], Ev.rd 1]) =
          countE isDataWrE st1.log + 1 := by
        simp [countE_append, countE_cons, countE_nil, isDataWrE,
              sectorData_length]
      show countE isDataWrE
          (st1.log ++ [Ev.rd 1, Ev.wr [252], Ev.wr (sectorData bufW 0),
                       Ev.wr [255, 255], Ev.rd 1]) + 4294967295 = _
      omega
    · simp only [ata_write, if_neg hci, hA, h25, hloop]
      simp

/-- Read-side environment for the count-0 run: CMD18 is accepted (ready
byte then response 0) and every later byte reads 0xfe. -/
def envC10r : SpiEnv :=
  { byte := fun k => if k = 0 then 255 else if k = 1 then 0 else 254,
    tick := fun i => (i * 16) % 256 }

/-- The bus state after the accepted CMD18 of the envC10r run. -/
def c10st1 : Bus :=
  { idx := 2, tcnt := 1, taken := true,
    log := [Ev.deselect, Ev.wr [255], Ev.obtain, Ev.select, Ev.rd 1,
            Ev.wr [82, 0, 0, 0, 0, 1], Ev.rd 1] }

/-- Write-side environment for the count-0 run: CMD25 is accepted, then
the bytes alternate ready 0xff and data-response 0x05. -/
def envC10w : SpiEnv :=
  { byte := fun k => if k = 0 then 255 else if k = 1 then 0
                     else if (k - 2) % 2 = 0 then 255 else 5,
    tick := fun i => (i * 16) % 256 }

/-- The bus state after the accepted CMD25 of the envC10w run. -/
def c10wst1 : Bus :=
  { idx := 2, tcnt := 1, taken := true,
    log := [Ev.deselect, Ev.wr [255], Ev.obtain, Ev.select, Ev.rd 1,
            Ev.wr [89, 0, 0, 0, 0, 1], Ev.rd 1] }

theorem ata_rw_count_zero_underflow_witness :
    (∃ stL, ata_read_loop envC10r 4294967296 4294967296 0 c10st1 =
        some (0, stL) ∧
      countE isDataRdE stL.log =
        countE isDataRdE c10st1.log + 4294967296 ∧
      ata_read envC10r 4294967296 0 0 ciMMC6 { } =
        (match sd_send_cmd envC10r 4294967296 12 0 stL with
         | none => none
         | some (r12, st3) =>
           some (if (r12 : Int) ≠ 0 then IOERR_ABORTED else 0,
                 sd_deselect st3))) ∧
    (∃ stL, ata_write_loop envC10w 4294967296 (fun _ => 0) 4294967296 0 0
          c10wst1 = some (0, stL) ∧
      countE isDataWrE stL.log =
        countE isDataWrE c10wst1.log + 4294967296 ∧
      ata_write envC10w 4294967296 (fun _ => 0) 0 0 ciMMC6 { } =
        (match sd_write_block envC10w 4294967296 [] 0xfd stL with
         | none => none
         | some (es, st3) =>
           some (if es ≠ 0 then IOERR_ABORTED else 0,
                 sd_deselect st3))) := by
  constructor
  · exact ata_rw_count_zero_underflow.1 envC10r 4294967296 0 ciMMC6 { }
      c10st1 (by decide)
      (fun k hk => by
        have hk2 : 2 ≤ k := hk
        show (if k = 0 then 255 else if k = 1 then 0 else (254 : Nat)) %
            256 = 254
        rw [if_neg (by omega), if_neg (by omega)])
      (Nat.le_refl _) (by decide)
  · exact ata_rw_count_zero_underflow.2 envC10w 4294967296 (fun _ => 0) 0
      ciMMC6 { } 0 { } c10wst1 (by decide)
      (fun k hk => by
        have hk2 : 2 ≤ k := hk
        show (if k = 0 then 255 else if k = 1 then 0
              else if (k - 2) % 2 = 0 then (255 : Nat) else 5) % 256 =
            if (k - 2) % 2 = 0 then 255 else 5
        rw [if_neg (by omega), if_neg (by omega)]
        by_cases hpar : (k - 2) % 2 = 0
        · rw [if_pos hpar]
        · rw [if_neg hpar])
      (Nat.le_refl _) (by decide) (by decide)
